import Mathlib

/-!
Verification development for the ESPA statistics-plotting program
(src/processing/plot.py).  The Python source is shallowly embedded:
pure computations become Lean functions, fallible Python operations
(list indexing, `int()` conversion, `datetime.date` construction,
dictionary key lookup, date/timedelta arithmetic) return `Except`
values carrying the corresponding Python exception, and floating-point
quantities are idealized as rationals.  Strings are modelled by Lean
`String` (a list of characters); Python 2 byte strings used by the
program are ASCII, where character-code comparison coincides with the
byte comparison Python performs.
-/

namespace ESPA

instance {ε α : Type} [DecidableEq ε] [DecidableEq α] : DecidableEq (Except ε α) := fun a b =>
  match a, b with
  | .ok x, .ok y =>
    if h : x = y then .isTrue (by rw [h]) else .isFalse (by intro hc; cases hc; exact h rfl)
  | .ok _, .error _ => .isFalse (by intro hc; cases hc)
  | .error _, .ok _ => .isFalse (by intro hc; cases hc)
  | .error e, .error f =>
    if h : e = f then .isTrue (by rw [h]) else .isFalse (by intro hc; cases hc; exact h rfl)

/-! ## Python string primitives -/

/-- Python string strict comparison (`s < t`): lexicographic by character
code, shorter prefix first. -/
def pyStrLtL : List Char → List Char → Bool
  | [], [] => false
  | [], _ :: _ => true
  | _ :: _, [] => false
  | a :: as, b :: bs =>
    if a.toNat < b.toNat then true
    else if b.toNat < a.toNat then false
    else pyStrLtL as bs

/-- Python string comparison (`s <= t`): lexicographic by character code. -/
def pyStrLeL : List Char → List Char → Bool
  | [], _ => true
  | _ :: _, [] => false
  | a :: as, b :: bs =>
    if a.toNat < b.toNat then true
    else if b.toNat < a.toNat then false
    else pyStrLeL as bs

def pyStrLt (s t : String) : Bool := pyStrLtL s.data t.data

def pyStrLe (s t : String) : Bool := pyStrLeL s.data t.data

/-- The ordering relation used when the program calls `sorted` on a list
of strings. -/
def rowLe (a b : String) : Prop := pyStrLe a b = true

instance : DecidableRel rowLe := fun a b =>
  inferInstanceAs (Decidable (pyStrLe a b = true))

/-- Python `str.startswith`. -/
def strStartsWith (s pre : String) : Bool := pre.data.isPrefixOf s.data

/-- Membership test `needle in haystack` on Python strings. -/
def containsSubL (needle : List Char) : List Char → Bool
  | [] => needle.isEmpty
  | c :: cs => needle.isPrefixOf (c :: cs) || containsSubL needle cs

def strContains (hay needle : String) : Bool := containsSubL needle.data hay.data

/-- ASCII lower-casing, as Python `str.lower` acts on the ASCII strings
used by the program. -/
def asciiLower (c : Char) : Char :=
  if 'A'.toNat ≤ c.toNat ∧ c.toNat ≤ 'Z'.toNat then Char.ofNat (c.toNat + 32) else c

def strToLower (s : String) : String := ⟨s.data.map asciiLower⟩

/-- Python slicing `s[a:b]` with non-negative bounds: total, clamping to
the string length. -/
def pySliceL (cs : List Char) (a b : Nat) : List Char := (cs.drop a).take (b - a)

def pySlice (s : String) (a b : Nat) : String := ⟨pySliceL s.data a b⟩

/-- Python `str.split` on a single-character separator, specialized to
the dot used by the program. -/
def splitDotAux : List Char → List Char → List String
  | cur, [] => [⟨cur.reverse⟩]
  | cur, c :: cs =>
    if c = '.' then (⟨cur.reverse⟩ : String) :: splitDotAux [] cs
    else splitDotAux (c :: cur) cs

def splitDot (s : String) : List String := splitDotAux [] s.data

/-! ## Python exceptions and fallible primitives -/

/-- The Python exceptions the embedded fragments can raise. -/
inductive PyErr where
  /-- `IndexError`: list index out of range. -/
  | indexError
  /-- `ValueError` raised by `int()` on a malformed literal. -/
  | valueErrorInt (s : String)
  /-- `ValueError` raised by `float()` on a malformed literal. -/
  | valueErrorFloat (s : String)
  /-- `TypeError`: unpacking the `None` returned by `get_mdom_from_ydoy`
  when the day-of-year exceeds the year length. -/
  | typeErrorUnpack
  /-- `KeyError` on a dictionary lookup. -/
  | keyError (k : String)
  /-- `ValueError` raised by the `datetime.date` constructor. -/
  | dateValueError (y m d : Int)
  /-- `OverflowError` from date plus/minus timedelta leaving the
  representable range. -/
  | overflowError
deriving DecidableEq

/-- Python exception propagation: run the continuation on the value,
pass any raised exception through (the `Except` bind). -/
def pyTry {A B : Type} (x : Except PyErr A) (f : A → Except PyErr B) : Except PyErr B :=
  match x with
  | .error e => .error e
  | .ok a => f a

def isDigitCh (c : Char) : Bool := 48 ≤ c.toNat && c.toNat ≤ 57

def allDigits (cs : List Char) : Bool := cs.all isDigitCh

def digitsToNat (cs : List Char) : Nat := cs.foldl (fun a c => a * 10 + (c.toNat - 48)) 0

def stripSpaces (cs : List Char) : List Char :=
  ((cs.dropWhile (· = ' ')).reverse.dropWhile (· = ' ')).reverse

/-- Python `int()` on a string: optional surrounding spaces, optional
sign, then a non-empty run of decimal digits. -/
def pyInt (s : String) : Option Int :=
  match stripSpaces s.data with
  | '-' :: rest => if rest ≠ [] && allDigits rest then some (-(digitsToNat rest : Int)) else none
  | '+' :: rest => if rest ≠ [] && allDigits rest then some ((digitsToNat rest : Int)) else none
  | cs => if cs ≠ [] && allDigits cs then some ((digitsToNat cs : Int)) else none

def pyIntE (s : String) : Except PyErr Int :=
  match pyInt s with
  | some v => .ok v
  | none => .error (.valueErrorInt s)

/-- Python `float()` on the decimal literals the stat files contain:
optional sign, digits with at most one dot (no exponent form, which the
program's data never uses).  Values are idealized as rationals. -/
def parseUnsignedQ (cs : List Char) : Option ℚ :=
  let ip := cs.takeWhile (fun c => c ≠ '.')
  match cs.dropWhile (fun c => c ≠ '.') with
  | [] => if cs ≠ [] && allDigits cs then some ((digitsToNat cs : ℚ)) else none
  | _ :: frac =>
    if (ip ++ frac) ≠ [] && allDigits ip && allDigits frac then
      some ((digitsToNat ip : ℚ) + (digitsToNat frac : ℚ) / ((10 : ℚ) ^ frac.length))
    else none

def pyFloat (s : String) : Option ℚ :=
  match stripSpaces s.data with
  | '-' :: rest => (parseUnsignedQ rest).map Neg.neg
  | '+' :: rest => parseUnsignedQ rest
  | cs => parseUnsignedQ cs

def pyFloatE (s : String) : Except PyErr ℚ :=
  match pyFloat s with
  | some v => .ok v
  | none => .error (.valueErrorFloat s)

/-! ## calendar: leap years and month lengths -/

/-- `calendar.isleap`.  Python `%` on a positive modulus returns a
non-negative remainder, matching `Int.emod`. -/
def isleap (year : Int) : Bool :=
  year % 4 == 0 && (year % 100 != 0 || year % 400 == 0)

/-- Day count of a month, the second component of `calendar.monthrange`
(the program only calls it with months 1..12). -/
def monthrange_days (year month : Int) : Int :=
  if month = 2 then (if isleap year then 29 else 28)
  else if month = 4 ∨ month = 6 ∨ month = 9 ∨ month = 11 then 30
  else 31

/-! ## get_mdom_from_ydoy -/

/-- The `while month < 13` loop of `get_mdom_from_ydoy`; the first
argument counts the months still to try (so that the recursion is
structural), starting from 12 at month 1.  Exhausting the months models
the implicit `return None` of the Python function. -/
def mdomLoop : Nat → Int → Int → Int → Option (Int × Int)
  | 0, _, _, _ => none
  | monthsLeft + 1, year, month, day_of_month =>
    let month_days := monthrange_days year month
    if day_of_month ≤ month_days then some (month, day_of_month)
    else mdomLoop monthsLeft year (month + 1) (day_of_month - month_days)

/-- `get_mdom_from_ydoy`: month and day-of-month from year and
day-of-year. -/
def get_mdom_from_ydoy (year day_of_year : Int) : Option (Int × Int) :=
  mdomLoop 12 year 1 day_of_year

/-! ## get_ymds_from_filename -/

def listGetE (l : List α) (i : Nat) : Except PyErr α :=
  match l.get? i with
  | some x => .ok x
  | none => .error .indexError

def mdomE (year day_of_year : Int) : Except PyErr (Int × Int) :=
  match get_mdom_from_ydoy year day_of_year with
  | some p => .ok p
  | none => .error .typeErrorUnpack

/-- Decoding shared by the `MOD` and `MYD` branches: the second
dot-separated segment carries the year in characters 1..4 and the
day-of-year in characters 5..7. -/
def modisDecode (filename sensor : String) : Except PyErr (Int × Int × Int × String) :=
  match listGetE (splitDot filename) 1 with
  | .error e => .error e
  | .ok date_element =>
    match pyIntE (pySlice date_element 1 5) with
    | .error e => .error e
    | .ok year =>
      match pyIntE (pySlice date_element 5 8) with
      | .error e => .error e
      | .ok day_of_year =>
        match mdomE year day_of_year with
        | .error e => .error e
        | .ok md => .ok (year, md.1, md.2, sensor)

/-- Decoding shared by the three Landsat branches: fixed offsets 9..12
for the year and 13..15 for the day-of-year. -/
def landsatDecode (filename sensor : String) : Except PyErr (Int × Int × Int × String) :=
  match pyIntE (pySlice filename 9 13) with
  | .error e => .error e
  | .ok year =>
    match pyIntE (pySlice filename 13 16) with
    | .error e => .error e
    | .ok day_of_year =>
      match mdomE year day_of_year with
      | .error e => .error e
      | .ok md => .ok (year, md.1, md.2, sensor)

/-- `get_ymds_from_filename`: year, month, day-of-month and sensor from
the scene filename; rules tried in source order, defaulting to
`(0, 0, 0, unk)` when no rule matches. -/
def get_ymds_from_filename (filename : String) : Except PyErr (Int × Int × Int × String) :=
  if strStartsWith filename "MOD" then modisDecode filename "Terra"
  else if strStartsWith filename "MYD" then modisDecode filename "Aqua"
  else if strContains filename "LT4" then landsatDecode filename "LT4"
  else if strContains filename "LT5" then landsatDecode filename "LT5"
  else if strContains filename "LE7" then landsatDecode filename "LE7"
  else .ok (0, 0, 0, "unk")

/-- A filename matched by none of the five sensor rules. -/
def unmatchedB (filename : String) : Bool :=
  !strStartsWith filename "MOD" && !strStartsWith filename "MYD" &&
  !strContains filename "LT4" && !strContains filename "LT5" &&
  !strContains filename "LE7"

/-! ## datetime.date -/

/-- A Python `datetime.date` value (components as produced by the
validated constructor). -/
structure PyDate where
  y : Int
  m : Int
  d : Int
deriving DecidableEq

/-- Python date comparison: lexicographic on (year, month, day). -/
def dateLtP (a b : PyDate) : Prop :=
  a.y < b.y ∨ (a.y = b.y ∧ (a.m < b.m ∨ (a.m = b.m ∧ a.d < b.d)))

instance (a b : PyDate) : Decidable (dateLtP a b) := by
  unfold dateLtP; infer_instance

def dateLtB (a b : PyDate) : Bool := decide (dateLtP a b)

/-- `datetime.date(y, m, d)`: validates ranges exactly as the Python
constructor (years 1..9999, months 1..12, days 1..month length). -/
def datetime_date (y m d : Int) : Except PyErr PyDate :=
  if 1 ≤ y ∧ y ≤ 9999 ∧ 1 ≤ m ∧ m ≤ 12 ∧ 1 ≤ d ∧ d ≤ monthrange_days y m then
    .ok ⟨y, m, d⟩
  else .error (.dateValueError y m d)

/-- Days before month `m` in a non-leap year (`m` in 1..12). -/
def cumDaysNonLeap (m : Int) : Int :=
  if m ≤ 1 then 0 else if m = 2 then 31 else if m = 3 then 59 else if m = 4 then 90
  else if m = 5 then 120 else if m = 6 then 151 else if m = 7 then 181 else if m = 8 then 212
  else if m = 9 then 243 else if m = 10 then 273 else if m = 11 then 304 else 334

def days_before_month (y m : Int) : Int :=
  cumDaysNonLeap m + (if 2 < m ∧ isleap y then 1 else 0)

/-- `date.toordinal`: proleptic Gregorian ordinal, day 1 = 0001-01-01. -/
def dateOrdinal (y m d : Int) : Int :=
  365 * (y - 1) + (y - 1) / 4 - (y - 1) / 100 + (y - 1) / 400 + days_before_month y m + d

def ordOf (dt : PyDate) : Int := dateOrdinal dt.y dt.m dt.d

/-- Ordinal of 9999-12-31, the largest representable date. -/
def maxOrdinal : Int := dateOrdinal 9999 12 31

/-- Date plus or minus `timedelta(days = k)`, on ordinals: raises
`OverflowError` outside the representable range. -/
def dateAddDays (o k : Int) : Except PyErr Int :=
  let r := o + k
  if 1 ≤ r ∧ r ≤ maxOrdinal then .ok r else .error .overflowError

/-! ## BAND_TYPE_DATA_RANGES -/

/-- One entry of `BAND_TYPE_DATA_RANGES` (floats idealized as
rationals). -/
structure RangeSpec where
  DATA_MAX : ℚ
  DATA_MIN : ℚ
  SCALE_MAX : ℚ
  SCALE_MIN : ℚ
  DISPLAY_MAX : ℚ
  DISPLAY_MIN : ℚ
  MAX_N_LOCATORS : Nat
deriving DecidableEq

/-- `BAND_TYPE_DATA_RANGES`, as the association of its keys (listed in
source insertion order) to their range specs.  The Python object is an
unordered `dict`; iteration order over its keys is unspecified, which
the resolution lemmas below account for by quantifying over
permutations of this key list. -/
def BAND_TYPE_DATA_RANGES : List (String × RangeSpec) :=
  [("SR", ⟨10000, 0, 1, 0, 1, 0, 12⟩),
   ("TOA", ⟨10000, 0, 1, 0, 1, 0, 12⟩),
   ("NDVI", ⟨10000, -1000, 1, -1/10, 1, -1/10, 13⟩),
   ("EVI", ⟨10000, -1000, 1, -1/10, 1, -1/10, 13⟩),
   ("SAVI", ⟨10000, -1000, 1, -1/10, 1, -1/10, 13⟩),
   ("MSAVI", ⟨10000, -1000, 1, -1/10, 1, -1/10, 13⟩),
   ("NBR", ⟨10000, -1000, 1, -1/10, 1, -1/10, 13⟩),
   ("NBR2", ⟨10000, -1000, 1, -1/10, 1, -1/10, 13⟩),
   ("NDMI", ⟨10000, -1000, 1, -1/10, 1, -1/10, 13⟩),
   ("LST", ⟨65535, 7500, 1, 0, 1, 0, 12⟩),
   ("Emis", ⟨255, 1, 1, 0, 1, 0, 12⟩)]

def bandKeys : List String := BAND_TYPE_DATA_RANGES.map Prod.fst

/-- The `for range_type in BAND_TYPE_DATA_RANGES` search of
`generate_plot`, for a given key iteration order: the first key that is
a prefix of the band-type label. -/
def findRangeKey (order : List String) (band_type : String) : Option String :=
  order.find? (fun k => strStartsWith band_type k)

def bandSpecOf (k : String) : RangeSpec :=
  ((BAND_TYPE_DATA_RANGES.find? (fun p => p.1 == k)).map Prod.snd).getD
    ⟨0, 0, 0, 0, 0, 0, 0⟩

/-! ## scale_data_to_range -/

/-- `scale_data_to_range`, element-wise on one value (the numpy
vectorized call applies this map to each array element); floats
idealized as rationals. -/
def scale_data_to_range (in_high in_low out_high out_low data : ℚ) : ℚ :=
  let in_range := in_high - in_low
  let out_range := out_high - out_low
  out_high - ((out_range * (in_high - data)) / in_range)

/-! ## generate_sensor_stats -/

/-- Python dict insertion on an association list: replace in place or
append. -/
def pyDictInsert (d : List (String × α)) (k : String) (v : α) : List (String × α) :=
  match d with
  | [] => [(k, v)]
  | (k0, v0) :: rest => if k0 = k then (k, v) :: rest else (k0, v0) :: pyDictInsert rest k v

/-- Building the `stats` dict by inserting each file in list order.  The
resulting association list holds one entry per distinct key; the
entries are modelled in insertion order (the CPython iteration order of
the dict is unspecified, and every use below either sorts the derived
rows or proves order-insensitive facts). -/
def pyDictOf (l : List (String × α)) : List (String × α) :=
  l.foldl (fun d p => pyDictInsert d p.1 p.2) []

/-- `obj[key]` on a parsed stat record. -/
def pyDictGet (obj : List (String × String)) (k : String) : Except PyErr String :=
  match obj.find? (fun p => p.1 == k) with
  | some p => .ok p.2
  | none => .error (.keyError k)

def digitChar (n : Nat) : Char :=
  if n = 0 then '0' else if n = 1 then '1' else if n = 2 then '2' else if n = 3 then '3'
  else if n = 4 then '4' else if n = 5 then '5' else if n = 6 then '6'
  else if n = 7 then '7' else if n = 8 then '8' else '9'

/-- Decimal digits of `n` (most significant first); the fuel argument
makes the recursion structural and `n + 1` always suffices. -/
def natDigitsF : Nat → Nat → List Char
  | 0, _ => []
  | fuel + 1, n =>
    if n < 10 then [digitChar n]
    else natDigitsF fuel (n / 10) ++ [digitChar (n % 10)]

def natDigitsL (n : Nat) : List Char := natDigitsF (n + 1) n

def padZeros (w : Nat) (cs : List Char) : List Char :=
  List.replicate (w - cs.length) '0' ++ cs

/-- Python `"%0Nd" % v`: zero-padded to total width `w`, sign included
in the width. -/
def pyFormat0d (w : Nat) (v : Int) : String :=
  if v < 0 then ⟨'-' :: padZeros (w - 1) (natDigitsL (-v).toNat)⟩
  else ⟨padZeros w (natDigitsL v.toNat)⟩

/-- The `'%04d-%02d-%02d'` date string of the aggregator. -/
def dateString (y m d : Int) : String :=
  pyFormat0d 4 y ++ "-" ++ pyFormat0d 2 m ++ "-" ++ pyFormat0d 2 d

/-- One `date,minimum,maximum,mean,stddev` record line of
`generate_sensor_stats`.  A stat file is given as its filename and the
key-value pairs produced for it by `read_stats`. -/
def statRow (filename : String) (obj : List (String × String)) : Except PyErr String :=
  match get_ymds_from_filename filename with
  | .error e => .error e
  | .ok ymds =>
    let date := dateString ymds.1 ymds.2.1 ymds.2.2.1
    match pyDictGet obj "minimum" with
    | .error e => .error e
    | .ok mn =>
      match pyDictGet obj "maximum" with
      | .error e => .error e
      | .ok mx =>
        match pyDictGet obj "mean" with
        | .error e => .error e
        | .ok mean =>
          match pyDictGet obj "stddev" with
          | .error e => .error e
          | .ok sd => .ok (date ++ "," ++ mn ++ "," ++ mx ++ "," ++ mean ++ "," ++ sd)

/-- The record-building loop of `generate_sensor_stats` over the stats
dict. -/
def collectRows : List (String × List (String × String)) → Except PyErr (List String)
  | [] => .ok []
  | p :: rest =>
    match statRow p.1 p.2 with
    | .error e => .error e
    | .ok r =>
      match collectRows rest with
      | .error e => .error e
      | .ok rs => .ok (r :: rs)

/-- `stat_name.replace(' ', '_').lower()`. -/
def normalizeLabel (label : String) : String :=
  ⟨(label.data.map (fun c => if c = ' ' then '_' else c)).map asciiLower⟩

def csvHeader : String := "DATE,MINIMUM,MAXIMUM,MEAN,STDDEV"

/-- The sorted record lines the aggregator writes below the header. -/
def sortedRowsOf (stat_files : List (String × List (String × String))) :
    Except PyErr (List String) :=
  match collectRows (pyDictOf stat_files) with
  | .error e => .error e
  | .ok rows => .ok (List.insertionSort rowLe rows)

/-- `generate_sensor_stats`: returns the output filename and the full
file contents (header, then each sorted record line preceded by a
newline). -/
def generate_sensor_stats (stat_name : String)
    (stat_files : List (String × List (String × String))) :
    Except PyErr (String × String) :=
  let out_filename := normalizeLabel stat_name ++ "_stats.csv"
  match sortedRowsOf stat_files with
  | .error e => .error e
  | .ok sortedRows =>
    .ok (out_filename, csvHeader ++ String.join (sortedRows.map (fun line => "\n" ++ line)))

/-! ## generate_plot -/

/-- Failures of `generate_plot`: the two `ValueError`s it raises itself,
and any Python exception escaping from the code it runs. -/
inductive PlotErr where
  /-- The plot-type validation error raised first. -/
  | invalidPlotType (pt : String)
  /-- The configuration error when no range key matches the band type. -/
  | noDataRange
  /-- Any other propagating Python exception. -/
  | py (e : PyErr)
deriving DecidableEq

/-- One record of the first loop of `generate_plot`: sensor, date and
the four parsed statistic values. -/
structure PlotEntry where
  sensor : String
  date : PyDate
  mn : ℚ
  mx : ℚ
  mean : ℚ
  sd : ℚ
deriving DecidableEq

/-- Dictionary lookup followed by `float()` conversion, as
`float(obj['minimum'])` etc. perform. -/
def floatField (obj : List (String × String)) (k : String) : Except PyErr ℚ :=
  match pyDictGet obj k with
  | .error e => .error e
  | .ok s => pyFloatE s

/-- The body of the first loop of `generate_plot` for one stat record:
resolve the scene identity, build the `datetime.date`, parse the four
float fields (in source order). -/
def plotRecord (filename : String) (obj : List (String × String)) :
    Except PyErr PlotEntry :=
  match get_ymds_from_filename filename with
  | .error e => .error e
  | .ok ymds =>
    match datetime_date ymds.1 ymds.2.1 ymds.2.2.1 with
    | .error e => .error e
    | .ok date =>
      match floatField obj "minimum" with
      | .error e => .error e
      | .ok mn =>
        match floatField obj "maximum" with
        | .error e => .error e
        | .ok mx =>
          match floatField obj "mean" with
          | .error e => .error e
          | .ok mean =>
            match floatField obj "stddev" with
            | .error e => .error e
            | .ok sd => .ok ⟨ymds.2.2.2, date, mn, mx, mean, sd⟩

/-- The sentinel initial value of `plot_date_min` (9998-12-31). -/
def sentinelMin : PyDate := ⟨9998, 12, 31⟩

/-- The sentinel initial value of `plot_date_max` (1900-01-01). -/
def sentinelMax : PyDate := ⟨1900, 1, 1⟩

/-- The first loop of `generate_plot`: collect the entries while
tracking the running minimum and maximum date. -/
def recordLoop : List (String × List (String × String)) →
    List PlotEntry → PyDate → PyDate →
    Except PyErr (List PlotEntry × PyDate × PyDate)
  | [], acc, dmin, dmax => .ok (acc.reverse, dmin, dmax)
  | p :: rest, acc, dmin, dmax =>
    pyTry (plotRecord p.1 p.2) (fun e =>
      recordLoop rest (e :: acc)
        (if dateLtB e.date dmin then e.date else dmin)
        (if dateLtB dmax e.date then e.date else dmax))

/-- The keys of the `SENSOR_COLORS` dict (looked up by the drawing
calls; a sensor without a colour raises `KeyError`). -/
def SENSOR_COLORS_KEYS : List String := ["Terra", "Aqua", "LT4", "LT5", "LE7"]

/-- The `sensors` legend list: distinct sensors in first-encounter
order (the CPython key order of the per-sensor dict is unspecified; the
facts proved below do not depend on it). -/
def firstSeen : List String → List String → List String
  | [], acc => acc.reverse
  | s :: rest, acc => if acc.contains s then firstSeen rest acc else firstSeen rest (s :: acc)

/-- Python tuple comparison on the per-sensor record tuples
(date first, as the source relies on). -/
def entryLeB (a b : PlotEntry) : Bool :=
  if dateLtB a.date b.date then true
  else if dateLtB b.date a.date then false
  else if a.mn < b.mn then true else if b.mn < a.mn then false
  else if a.mx < b.mx then true else if b.mx < a.mx then false
  else if a.mean < b.mean then true else if b.mean < a.mean then false
  else decide (a.sd ≤ b.sd)

def entryLe (a b : PlotEntry) : Prop := entryLeB a b = true

instance : DecidableRel entryLe := fun a b =>
  inferInstanceAs (Decidable (entryLeB a b = true))

/-- One scaled point of a drawn series. -/
structure SeriesPoint where
  date : PyDate
  mn : ℚ
  mx : ℚ
  mean : ℚ
  sd : ℚ
deriving DecidableEq

/-- The scaled, date-sorted series drawn for one sensor. -/
def sensorSeries (spec : RangeSpec) (entries : List PlotEntry) (sensor : String) :
    List SeriesPoint :=
  (List.insertionSort entryLe (entries.filter (fun e => e.sensor == sensor))).map
    (fun e =>
      ⟨e.date,
       scale_data_to_range spec.DATA_MAX spec.DATA_MIN spec.SCALE_MAX spec.SCALE_MIN e.mn,
       scale_data_to_range spec.DATA_MAX spec.DATA_MIN spec.SCALE_MAX spec.SCALE_MIN e.mx,
       scale_data_to_range spec.DATA_MAX spec.DATA_MIN spec.SCALE_MAX spec.SCALE_MIN e.mean,
       scale_data_to_range spec.DATA_MAX spec.DATA_MIN spec.SCALE_MAX spec.SCALE_MIN e.sd⟩)

/-- The per-sensor drawing loop: for each sensor, sort and scale its
series; drawing it looks up the sensor colour, raising `KeyError` for
an unknown sensor. -/
def sensorLoop (spec : RangeSpec) (entries : List PlotEntry) :
    List String → Except PyErr (List (String × List SeriesPoint))
  | [] => .ok []
  | s :: rest =>
    if SENSOR_COLORS_KEYS.contains s then
      match sensorLoop spec entries rest with
      | .error e => .error e
      | .ok tail => .ok ((s, sensorSeries spec entries s) :: tail)
    else .error (.keyError s)

/-- The X-axis padding loop: five days off the minimum and onto the
maximum per iteration, with the overflow check of date arithmetic. -/
def padLoop : Nat → Int → Int → Except PyErr (Int × Int)
  | 0, mn, mx => .ok (mn, mx)
  | n + 1, mn, mx =>
    pyTry (dateAddDays mn (-5)) (fun mn2 =>
      pyTry (dateAddDays mx 5) (fun mx2 => padLoop n mn2 mx2))

/-- The chart description `generate_plot` hands to the renderer: axis
bounds (X as date ordinals), tick bound, per-sensor series and the file
the image is saved to. -/
structure PlotOut where
  xlimLo : Int
  xlimHi : Int
  ylimLo : ℚ
  ylimHi : ℚ
  maxNLocators : Nat
  series : List (String × List SeriesPoint)
  outFile : String
deriving DecidableEq

/-- Python `replace('- ', '')`: drop every (non-overlapping, leftmost
first) occurrence of dash-space. -/
def replaceDashSpace : List Char → List Char
  | [] => []
  | '-' :: ' ' :: rest => replaceDashSpace rest
  | c :: rest => c :: replaceDashSpace rest

/-- The plot image filename built from the title and the subjects. -/
def plotFileName (plot_name : String) (subjects : List String) : String :=
  let title := String.intercalate " " ([plot_name, "-"] ++ subjects)
  let fn := strToLower ⟨replaceDashSpace title.data⟩
  let fn := String.mk (fn.data.map (fun c => if c = ' ' then '_' else c))
  fn ++ "_plot" ++ ".png"

/-- The `lower_subject` computation: forced to `mean` for Range plots,
otherwise the lower-cased first subject (`IndexError` when there is
none). -/
def lowerSubject (subjects : List String) (plot_type : String) : Except PyErr String :=
  if plot_type == "Range" then .ok "mean"
  else
    match listGetE subjects 0 with
    | .error e => .error e
    | .ok s => .ok (strToLower s)

/-- Everything `generate_plot` does after the plot-type validation and
the range resolution, given the resolved range spec: compute the
subject, run the record loop (entries and date extremes), draw the
per-sensor series, compute the Y limits, run the padding loop on the
tracked date extremes. -/
def plotBody (plot_name : String) (subjects : List String) (spec : RangeSpec)
    (stats : List (String × List (String × String))) (plot_type : String) :
    Except PyErr PlotOut :=
  pyTry (lowerSubject subjects plot_type) (fun _lower_subject =>
    pyTry (recordLoop stats [] sentinelMin sentinelMax) (fun r =>
      pyTry (sensorLoop spec r.1 (firstSeen ((r.1).map (fun e => e.sensor)) [])) (fun series =>
        pyTry (padLoop ((Int.fdiv (ordOf r.2.2 - ordOf r.2.1) 365) + 1).toNat
            (ordOf r.2.1) (ordOf r.2.2)) (fun xlims =>
          .ok ⟨xlims.1, xlims.2, spec.DISPLAY_MIN - 1/40, spec.DISPLAY_MAX + 1/40,
               spec.MAX_N_LOCATORS, series, plotFileName plot_name subjects⟩))))

/-- `generate_plot`: validate the plot type, resolve the band-type
range spec by key search (dict order modelled as insertion order; the
resolved spec is proved order-independent below), then run the body. -/
def generate_plot (plot_name : String) (subjects : List String) (band_type : String)
    (stats : List (String × List (String × String))) (plot_type : String) :
    Except PlotErr PlotOut :=
  if plot_type = "Range" ∨ plot_type = "Value" then
    match findRangeKey bandKeys band_type with
    | none => .error .noDataRange
    | some key =>
      (plotBody plot_name subjects (bandSpecOf key) stats plot_type).mapError PlotErr.py
  else .error (.invalidPlotType plot_type)

/-! ## Derived notions used to state the verified properties -/

def exceptOk {ε α : Type} : Except ε α → Bool
  | .ok _ => true
  | .error _ => false

/-- The record lines of the aggregator in stats-dict order, for inputs
on which every row builds. -/
def okRows (stat_files : List (String × List (String × String))) : List String :=
  stat_files.filterMap (fun p => (statRow p.1 p.2).toOption)

/-- The scene identity of a filename resolves with the components in
the ranges that make the formatted date field exactly ten characters
wide. -/
def ymdsWidthOk (f : String) : Bool :=
  match get_ymds_from_filename f with
  | .ok (y, m, d, _) =>
    decide (0 ≤ y) && decide (y ≤ 9999) && decide (0 ≤ m) && decide (m ≤ 99) &&
    decide (0 ≤ d) && decide (d ≤ 99)
  | .error _ => false

/-- The `datetime.date` a stat record contributes to the plot. -/
def recordDate (p : String × List (String × String)) : Except PyErr PyDate :=
  match get_ymds_from_filename p.1 with
  | .error e => .error e
  | .ok ymds => datetime_date ymds.1 ymds.2.1 ymds.2.2.1

/-- The dates of the records whose date construction succeeds, in input
order. -/
def plotDates (stats : List (String × List (String × String))) : List PyDate :=
  stats.filterMap (fun p => (recordDate p).toOption)

/-- The entries of the records that parse completely, in input order. -/
def entriesOf (stats : List (String × List (String × String))) : List PlotEntry :=
  stats.filterMap (fun p => (plotRecord p.1 p.2).toOption)

/-- Two-argument minimum in Python date order (left bias on ties),
matching the `if date < plot_date_min` update. -/
def min2D (a b : PyDate) : PyDate := if dateLtB b a then b else a

/-- Two-argument maximum in Python date order (left bias on ties),
matching the `if date > plot_date_max` update. -/
def max2D (a b : PyDate) : PyDate := if dateLtB a b then b else a

/-- The observed minimum date of a non-empty date list. -/
def obsMinDate : List PyDate → PyDate
  | [] => sentinelMin
  | d :: ds => ds.foldl min2D d

/-- The observed maximum date of a non-empty date list. -/
def obsMaxDate : List PyDate → PyDate
  | [] => sentinelMax
  | d :: ds => ds.foldl max2D d

/-- The number of padding passes of the X-axis loop, as stated by the
specification: `floor(days / 365) + 1` for the observed date span. -/
def padIters (stats : List (String × List (String × String))) : Int :=
  Int.fdiv (ordOf (obsMaxDate (plotDates stats)) - ordOf (obsMinDate (plotDates stats))) 365 + 1

/-- Modelled from the specification's wording of resolution rule 1
(for comparison with the source's `MOD` branch): split on the dot, read
the second segment's characters 1-4 as the year and 5-7 as the
day-of-year, convert the day-of-year, sensor Terra. -/
def modRuleSpec (filename : String) : Except PyErr (Int × Int × Int × String) :=
  match listGetE (splitDot filename) 1 with
  | .error e => .error e
  | .ok seg =>
    match pyIntE (pySlice seg 1 5) with
    | .error e => .error e
    | .ok year =>
      match pyIntE (pySlice seg 5 8) with
      | .error e => .error e
      | .ok doy =>
        match mdomE year doy with
        | .error e => .error e
        | .ok md => .ok (year, md.1, md.2, "Terra")

/-! # Helper lemmas: the Python string order -/

theorem pyStrLeL_trans : ∀ (a b c : List Char),
    pyStrLeL a b = true → pyStrLeL b c = true → pyStrLeL a c = true := by
  intro a
  induction a with
  | nil => intro b c _ _; rfl
  | cons x xs ih =>
    intro b c hab hbc
    cases b with
    | nil => exact absurd hab (by simp [pyStrLeL])
    | cons y ys =>
      cases c with
      | nil => exact absurd hbc (by simp [pyStrLeL])
      | cons z zs =>
        simp only [pyStrLeL] at hab hbc ⊢
        rcases Nat.lt_trichotomy x.toNat y.toNat with h1 | h1 | h1 <;>
          rcases Nat.lt_trichotomy y.toNat z.toNat with h2 | h2 | h2
        · rw [if_pos (by omega)]
        · rw [if_pos (by omega)]
        · rw [if_neg (by omega), if_pos (by omega)] at hbc
          exact absurd hbc (by simp)
        · rw [if_pos (by omega)]
        · rw [if_neg (by omega), if_neg (by omega)] at hab hbc ⊢
          exact ih ys zs hab hbc
        · rw [if_neg (by omega), if_pos (by omega)] at hbc
          exact absurd hbc (by simp)
        · rw [if_neg (by omega), if_pos (by omega)] at hab
          exact absurd hab (by simp)
        · rw [if_neg (by omega), if_pos (by omega)] at hab
          exact absurd hab (by simp)
        · rw [if_neg (by omega), if_pos (by omega)] at hab
          exact absurd hab (by simp)

theorem pyStrLeL_total : ∀ (a b : List Char), pyStrLeL a b = true ∨ pyStrLeL b a = true := by
  intro a
  induction a with
  | nil => intro b; left; rfl
  | cons x xs ih =>
    intro b
    cases b with
    | nil => right; rfl
    | cons y ys =>
      simp only [pyStrLeL]
      rcases Nat.lt_trichotomy x.toNat y.toNat with h | h | h
      · left; rw [if_pos h]
      · rcases ih ys with h2 | h2
        · left; rw [if_neg (by omega), if_neg (by omega)]; exact h2
        · right; rw [if_neg (by omega), if_neg (by omega)]; exact h2
      · right; rw [if_pos h]

instance : IsTrans String rowLe :=
  ⟨fun a b c hab hbc => pyStrLeL_trans a.data b.data c.data hab hbc⟩

instance : IsTotal String rowLe := ⟨fun a b => pyStrLeL_total a.data b.data⟩

/-- A comparison of equal-length-prefixed strings restricts to the
prefixes. -/
theorem pyStrLeL_append : ∀ (xs ys as bs : List Char), xs.length = ys.length →
    pyStrLeL (xs ++ as) (ys ++ bs) = true → pyStrLeL xs ys = true := by
  intro xs
  induction xs with
  | nil => intro ys as bs hlen _; rfl
  | cons x xs ih =>
    intro ys as bs hlen h
    cases ys with
    | nil => exact absurd hlen (by simp)
    | cons y ys =>
      simp only [List.cons_append, pyStrLeL] at h ⊢
      rcases Nat.lt_trichotomy x.toNat y.toNat with h1 | h1 | h1
      · rw [if_pos h1]
      · rw [if_neg (by omega), if_neg (by omega)] at h ⊢
        exact ih ys as bs (by simpa using hlen) h
      · rw [if_neg (by omega), if_pos (by omega)] at h
        exact absurd h (by simp)

/-- A strict comparison decided within equal-length prefixes persists
under appending. -/
theorem pyStrLtL_append : ∀ (xs ys as bs : List Char), xs.length = ys.length →
    pyStrLtL xs ys = true → pyStrLtL (xs ++ as) (ys ++ bs) = true := by
  intro xs
  induction xs with
  | nil =>
    intro ys as bs hlen h
    cases ys with
    | nil => exact absurd h (by simp [pyStrLtL])
    | cons y ys => exact absurd hlen (by simp)
  | cons x xs ih =>
    intro ys as bs hlen h
    cases ys with
    | nil => exact absurd hlen (by simp)
    | cons y ys =>
      simp only [List.cons_append, pyStrLtL] at h ⊢
      rcases Nat.lt_trichotomy x.toNat y.toNat with h1 | h1 | h1
      · rw [if_pos h1]
      · rw [if_neg (by omega), if_neg (by omega)] at h ⊢
        exact ih ys as bs (by simpa using hlen) h
      · rw [if_neg (by omega), if_pos (by omega)] at h
        exact absurd h (by simp)

/-- A run of zeros is strictly below any equal-length digit run with a
nonzero leading digit, zero-padded to the same width. -/
theorem pyStrLtL_zeros : ∀ (j : Nat) (c : Char) (cs : List Char), 49 ≤ c.toNat →
    pyStrLtL (List.replicate (j + (c :: cs).length) '0')
      (List.replicate j '0' ++ c :: cs) = true := by
  intro j
  induction j with
  | zero =>
    intro c cs hc
    simp only [Nat.zero_add, List.replicate_succ, List.length_cons, List.replicate,
      List.nil_append]
    simp only [pyStrLtL]
    rw [if_pos (by have h0 : ('0' : Char).toNat = 48 := rfl; omega)]
  | succ j ih =>
    intro c cs hc
    have hlen : j + 1 + (c :: cs).length = (j + (c :: cs).length) + 1 := by omega
    rw [hlen, List.replicate_succ, List.replicate_succ, List.cons_append]
    simp only [pyStrLtL]
    rw [if_neg (by omega), if_neg (by omega)]
    exact ih c cs hc

/-! # Helper lemmas: mdom unrolling -/

theorem mdomLoop_succ (f : Nat) (y m d : Int) :
    mdomLoop (f + 1) y m d =
      if d ≤ monthrange_days y m then some (m, d)
      else mdomLoop f y (m + 1) (d - monthrange_days y m) := rfl

theorem monthrange_days_1 (y : Int) : monthrange_days y 1 = 31 := rfl

theorem monthrange_days_2 (y : Int) :
    monthrange_days y 2 = if isleap y then 29 else 28 := rfl

theorem monthrange_days_3 (y : Int) : monthrange_days y 3 = 31 := rfl

/-- C5 helper: full unrolling of day-of-year 60. -/
theorem mdom_sixty (year : Int) :
    get_mdom_from_ydoy year 60 =
      if isleap year then some (2, 29) else some (3, 1) := by
  show mdomLoop 12 year 1 60 = _
  rw [show (12 : Nat) = 11 + 1 from rfl, mdomLoop_succ, monthrange_days_1,
    if_neg (by omega), show (60 : Int) - 31 = 29 by decide,
    show (1 : Int) + 1 = 2 by decide,
    show (11 : Nat) = 10 + 1 from rfl, mdomLoop_succ, monthrange_days_2]
  by_cases h : isleap year
  · rw [if_pos h, if_pos h, if_pos (by omega)]
  · rw [if_neg h, if_neg h, if_neg (by omega),
      show (29 : Int) - 28 = 1 by decide, show (2 : Int) + 1 = 3 by decide,
      show (10 : Nat) = 9 + 1 from rfl, mdomLoop_succ, monthrange_days_3,
      if_pos (by omega)]

/-- C5: the day-of-year conversion is leap-year aware: day 60 maps to
February 29 in a Gregorian leap year and to March 1 otherwise. -/
theorem mdom_day60_leap_aware (year : Int) :
    (isleap year = true → get_mdom_from_ydoy year 60 = some (2, 29)) ∧
    (isleap year = false → get_mdom_from_ydoy year 60 = some (3, 1)) := by
  constructor <;> intro h <;> rw [mdom_sixty year]
  · rw [if_pos h]
  · rw [if_neg (by simp [h])]

/-- Witness for C5 at the leap year 2016 and the non-leap year 2015. -/
theorem mdom_day60_leap_aware_witness :
    (isleap 2016 = true ∧ get_mdom_from_ydoy 2016 60 = some (2, 29)) ∧
    (isleap 2015 = false ∧ get_mdom_from_ydoy 2015 60 = some (3, 1)) :=
  ⟨⟨by decide, (mdom_day60_leap_aware 2016).1 (by decide)⟩,
   ⟨by decide, (mdom_day60_leap_aware 2015).2 (by decide)⟩⟩

/-- C6: the data scaler computes the stated affine map, is the identity
when the target range equals the data range, and preserves both
endpoints exactly, for distinct data bounds. -/
theorem scale_affine_identity_endpoints (x lo hi tlo thi : ℚ) (h : hi ≠ lo) :
    scale_data_to_range hi lo thi tlo x = thi - (thi - tlo) * (hi - x) / (hi - lo) ∧
    scale_data_to_range hi lo hi lo x = x ∧
    scale_data_to_range hi lo thi tlo hi = thi ∧
    scale_data_to_range hi lo thi tlo lo = tlo := by
  have h0 : hi - lo ≠ 0 := sub_ne_zero.mpr h
  refine ⟨rfl, ?_, ?_, ?_⟩ <;> unfold scale_data_to_range <;> field_simp

/-- Witness for C6 with data range [0, 10] and target range [2, 7]. -/
theorem scale_affine_identity_endpoints_witness :
    (10 : ℚ) ≠ 0 ∧
    (scale_data_to_range 10 0 7 2 3 = 7 - (7 - 2) * (10 - 3) / (10 - 0) ∧
     scale_data_to_range 10 0 10 0 3 = 3 ∧
     scale_data_to_range 10 0 7 2 10 = 7 ∧
     scale_data_to_range 10 0 7 2 0 = 2) :=
  ⟨by decide, scale_affine_identity_endpoints 3 0 10 2 7 (by decide)⟩

/-! # The resolver: C2 and C7 -/

/-- C2 helper (also used for the plot-failure claim): the unmatched
fallback of the resolver. -/
theorem get_ymds_unmatched (f : String) (h : unmatchedB f = true) :
    get_ymds_from_filename f = .ok (0, 0, 0, "unk") := by
  unfold unmatchedB at h
  simp only [Bool.and_eq_true, Bool.not_eq_true'] at h
  obtain ⟨⟨⟨⟨h1, h2⟩, h3⟩, h4⟩, h5⟩ := h
  unfold get_ymds_from_filename
  simp [h1, h2, h3, h4, h5]

/-- C2 (amended): on every filename matched by none of the five sensor
rules, the resolver succeeds with the silent fallback identity
year 0, month 0, day 0, sensor unknown. -/
theorem resolver_unmatched_fallback (f : String) (h : unmatchedB f = true) :
    get_ymds_from_filename f = .ok (0, 0, 0, "unk") := get_ymds_unmatched f h

/-- Witness for the amended C2 at a plain filename. -/
theorem resolver_unmatched_fallback_witness :
    unmatchedB "scene.stats" = true ∧
    get_ymds_from_filename "scene.stats" = .ok (0, 0, 0, "unk") :=
  ⟨by decide, resolver_unmatched_fallback "scene.stats" (by decide)⟩

/-- C2 counterexample: the resolver is not total.  The filename "MODX"
matches the MOD rule but has no second dot-segment, so the resolver
fails with an IndexError instead of returning a result. -/
theorem resolver_not_total_cex :
    get_ymds_from_filename "MODX" = .error .indexError ∧
    exceptOk (get_ymds_from_filename "MODX") = false := by decide

/-- C7: every filename starting with MOD is decoded exactly by the
stated rule (split on the dot, characters 1-4 of the second segment as
the year, 5-7 as the day-of-year, sensor Terra), and the concrete
Terra filename with year segment 2016 and day-of-year 033 resolves to
February 2, 2016. -/
theorem resolver_mod_rule :
    (∀ f : String, strStartsWith f "MOD" = true →
      get_ymds_from_filename f = modRuleSpec f) ∧
    get_ymds_from_filename "MOD09GQ.A2016033.h08v05.005.stats" =
      .ok (2016, 2, 2, "Terra") := by
  constructor
  · intro f h
    unfold get_ymds_from_filename
    rw [if_pos h]
    rfl
  · decide

/-- Witness for C7's universally quantified part at a MODIS filename. -/
theorem resolver_mod_rule_witness :
    strStartsWith "MOD13Q1.A2014100.stats" "MOD" = true ∧
    get_ymds_from_filename "MOD13Q1.A2014100.stats" =
      modRuleSpec "MOD13Q1.A2014100.stats" :=
  ⟨by decide, resolver_mod_rule.1 "MOD13Q1.A2014100.stats" (by decide)⟩

/-! # Unfolding lemmas for generate_plot -/

theorem generate_plot_noRange {pn : String} {subjects : List String} {band_type : String}
    {stats : List (String × List (String × String))} {pt : String}
    (hv : pt = "Range" ∨ pt = "Value") (hk : findRangeKey bandKeys band_type = none) :
    generate_plot pn subjects band_type stats pt = .error .noDataRange := by
  unfold generate_plot
  rw [if_pos hv, hk]

theorem generate_plot_body {pn : String} {subjects : List String} {band_type : String}
    {stats : List (String × List (String × String))} {pt key : String}
    (hv : pt = "Range" ∨ pt = "Value") (hk : findRangeKey bandKeys band_type = some key) :
    generate_plot pn subjects band_type stats pt =
      Except.mapError PlotErr.py (plotBody pn subjects (bandSpecOf key) stats pt) := by
  unfold generate_plot
  rw [if_pos hv, hk]

/-! # Band-type range resolution: C1 -/

/-- Any two registry keys of which one prefixes the other carry the
same range spec (the only such pair is NBR and NBR2, with identical
entries). -/
theorem bandKeys_prefix_compat :
    ∀ k1 ∈ bandKeys, ∀ k2 ∈ bandKeys,
      k1.data.isPrefixOf k2.data = true → bandSpecOf k1 = bandSpecOf k2 := by
  intro k1 h1 k2 h2 hpre
  have e : bandKeys =
      ["SR", "TOA", "NDVI", "EVI", "SAVI", "MSAVI", "NBR", "NBR2", "NDMI", "LST", "Emis"] := rfl
  rw [e] at h1 h2
  simp only [List.mem_cons, List.not_mem_nil, or_false] at h1 h2
  rcases h1 with rfl | rfl | rfl | rfl | rfl | rfl | rfl | rfl | rfl | rfl | rfl <;>
    rcases h2 with rfl | rfl | rfl | rfl | rfl | rfl | rfl | rfl | rfl | rfl | rfl <;>
      first
        | rfl
        | exact absurd hpre (by decide)

/-- C1 (amended): for every iteration order the dictionary may present,
the range resolution fails exactly when no registry key is a prefix of
the band-type label (and then plot building raises the configuration
error); when a key is found it need not be the longest match, but the
range spec selected is the same under every iteration order, because
the only prefix-nested keys (NBR, NBR2) have identical entries. -/
theorem band_range_resolution_first_match (order : List String)
    (horder : order.Perm bandKeys) (band_type : String) :
    (findRangeKey order band_type = none ↔
      ∀ k ∈ bandKeys, strStartsWith band_type k = false) ∧
    (findRangeKey order band_type = none →
      ∀ pn subjects stats pt, pt = "Range" ∨ pt = "Value" →
        generate_plot pn subjects band_type stats pt = .error .noDataRange) ∧
    (∀ order2, order2.Perm bandKeys → ∀ k k2,
      findRangeKey order band_type = some k →
      findRangeKey order2 band_type = some k2 →
      bandSpecOf k = bandSpecOf k2) := by
  have hnone : ∀ o : List String, o.Perm bandKeys →
      (findRangeKey o band_type = none ↔
        ∀ k ∈ bandKeys, strStartsWith band_type k = false) := by
    intro o ho
    unfold findRangeKey
    rw [List.find?_eq_none]
    constructor
    · intro h k hk
      have := h k (ho.mem_iff.mpr hk)
      simpa using this
    · intro h k hk
      simp [h k (ho.mem_iff.mp hk)]
  refine ⟨hnone order horder, ?_, ?_⟩
  · intro h pn subjects stats pt hpt
    have hb : findRangeKey bandKeys band_type = none :=
      (hnone bandKeys (List.Perm.refl _)).mpr ((hnone order horder).mp h)
    unfold generate_plot
    rw [if_pos hpt, hb]
  · intro order2 h2 k k2 hk hk2
    unfold findRangeKey at hk hk2
    have hkmem : k ∈ bandKeys := horder.mem_iff.mp (List.mem_of_find?_eq_some hk)
    have hk2mem : k2 ∈ bandKeys := h2.mem_iff.mp (List.mem_of_find?_eq_some hk2)
    have hkp : strStartsWith band_type k = true := List.find?_some hk
    have hk2p : strStartsWith band_type k2 = true := List.find?_some hk2
    have hp1 : k.data <+: band_type.data := List.isPrefixOf_iff_prefix.mp hkp
    have hp2 : k2.data <+: band_type.data := List.isPrefixOf_iff_prefix.mp hk2p
    rcases List.prefix_or_prefix_of_prefix hp1 hp2 with hpp | hpp
    · exact bandKeys_prefix_compat k hkmem k2 hk2mem (List.isPrefixOf_iff_prefix.mpr hpp)
    · exact (bandKeys_prefix_compat k2 hk2mem k hkmem (List.isPrefixOf_iff_prefix.mpr hpp)).symm

/-- Witness for the amended C1: under the source insertion order the
label NBR2 is routed to the key NBR, under an order listing NBR2 first
it is routed to NBR2, and the selected range specs agree. -/
theorem band_range_resolution_first_match_witness :
    findRangeKey bandKeys "NBR2" = some "NBR" ∧
    findRangeKey ["NBR2", "SR", "TOA", "NDVI", "EVI", "SAVI", "MSAVI", "NBR", "NDMI", "LST",
      "Emis"] "NBR2" = some "NBR2" ∧
    bandSpecOf "NBR" = bandSpecOf "NBR2" :=
  ⟨by decide, by decide,
   (band_range_resolution_first_match bandKeys (List.Perm.refl _) "NBR2").2.2
     ["NBR2", "SR", "TOA", "NDVI", "EVI", "SAVI", "MSAVI", "NBR", "NDMI", "LST", "Emis"]
     (by decide) "NBR" "NBR2" (by decide) (by decide)⟩

/-- C1 counterexample: an iteration order that lists NBR before NBR2 —
admissible for the unordered registry dictionary — routes the label
NBR2 to the shorter key NBR even though the longer key NBR2 also
matches, refuting the longest-match selection. -/
theorem band_range_resolution_longest_cex :
    List.Perm ["NBR", "SR", "TOA", "NDVI", "EVI", "SAVI", "MSAVI", "NBR2", "NDMI", "LST",
      "Emis"] bandKeys ∧
    strStartsWith "NBR2" "NBR2" = true ∧
    findRangeKey ["NBR", "SR", "TOA", "NDVI", "EVI", "SAVI", "MSAVI", "NBR2", "NDMI", "LST",
      "Emis"] "NBR2" = some "NBR" ∧
    ("NBR" : String) ≠ "NBR2" := ⟨by decide, by decide, by decide, by decide⟩

/-! # Plot-type validation: C8 -/

/-- C8: `generate_plot` returns the plot-type validation error exactly
when the supplied plot type is neither Range nor Value; the check comes
first, so on that error the result is the bare validation error for
every input (no chart description is produced). -/
theorem plot_type_validation (pn : String) (subjects : List String) (band_type : String)
    (stats : List (String × List (String × String))) (plot_type : String) :
    generate_plot pn subjects band_type stats plot_type =
      .error (.invalidPlotType plot_type) ↔
    (plot_type ≠ "Range" ∧ plot_type ≠ "Value") := by
  constructor
  · intro h
    by_cases hv : plot_type = "Range" ∨ plot_type = "Value"
    · exfalso
      cases hk : findRangeKey bandKeys band_type with
      | none =>
        rw [generate_plot_noRange hv hk] at h
        exact PlotErr.noConfusion (Except.error.inj h)
      | some key =>
        rw [generate_plot_body hv hk] at h
        cases hb : plotBody pn subjects (bandSpecOf key) stats plot_type with
        | ok v => rw [hb] at h; exact Except.noConfusion h
        | error e => rw [hb] at h; exact PlotErr.noConfusion (Except.error.inj h)
    · push_neg at hv; exact hv
  · intro h
    unfold generate_plot
    rw [if_neg (by tauto)]

/-- Witness for C8 at the invalid plot type "Bogus". -/
theorem plot_type_validation_witness :
    generate_plot "p" ["Minimum"] "NDVI" [] "Bogus" = .error (.invalidPlotType "Bogus") :=
  (plot_type_validation "p" ["Minimum"] "NDVI" [] "Bogus").mpr (by decide)

/-! # Helper lemmas: the stats dict and the aggregator rows -/

theorem str_data_append (s t : String) : (s ++ t).data = s.data ++ t.data := rfl

theorem take_len_append : ∀ (xs ys : List Char), (xs ++ ys).take xs.length = xs := by
  intro xs ys
  induction xs with
  | nil => rfl
  | cons x xs ih => simp [ih]

theorem pyDictInsert_append {α : Type} : ∀ (acc : List (String × α)) (k : String) (v : α),
    k ∉ acc.map Prod.fst → pyDictInsert acc k v = acc ++ [(k, v)] := by
  intro acc
  induction acc with
  | nil => intro k v _; rfl
  | cons p rest ih =>
    intro k v hk
    obtain ⟨k0, v0⟩ := p
    simp only [List.map_cons, List.mem_cons] at hk
    push_neg at hk
    unfold pyDictInsert
    rw [if_neg (fun he => hk.1 he.symm), ih k v hk.2]
    rfl

theorem pyDictOf_aux {α : Type} : ∀ (l acc : List (String × α)),
    ((acc ++ l).map Prod.fst).Nodup →
    l.foldl (fun d p => pyDictInsert d p.1 p.2) acc = acc ++ l := by
  intro l
  induction l with
  | nil => intro acc _; simp
  | cons p rest ih =>
    intro acc h
    simp only [List.foldl_cons]
    have hk : p.1 ∉ acc.map Prod.fst := by
      rw [List.map_append] at h
      have hd := (List.nodup_append.mp h).2.2
      intro hin
      exact hd hin (by simp)
    rw [pyDictInsert_append acc p.1 p.2 hk]
    have h2 : (((acc ++ [p]) ++ rest).map Prod.fst).Nodup := by
      simpa [List.append_assoc] using h
    rw [ih (acc ++ [p]) h2]
    simp

/-- Building the Python dict from a file list with pairwise-distinct
names keeps exactly the input entries. -/
theorem pyDictOf_eq_self {α : Type} (l : List (String × α))
    (h : (l.map Prod.fst).Nodup) : pyDictOf l = l := by
  unfold pyDictOf
  simpa using pyDictOf_aux l [] (by simpa using h)

theorem collectRows_ok : ∀ (l : List (String × List (String × String))),
    (∀ p ∈ l, exceptOk (statRow p.1 p.2) = true) →
    collectRows l = .ok (okRows l) := by
  intro l
  induction l with
  | nil => intro _; rfl
  | cons p rest ih =>
    intro h
    have hp := h p (List.mem_cons_self p rest)
    obtain ⟨r, hr⟩ : ∃ r, statRow p.1 p.2 = .ok r := by
      cases hst : statRow p.1 p.2 with
      | ok r => exact ⟨r, rfl⟩
      | error e => rw [hst] at hp; exact absurd hp (by simp [exceptOk])
    unfold collectRows
    rw [hr, ih (fun q hq => h q (List.mem_cons_of_mem _ hq))]
    unfold okRows
    rw [List.filterMap_cons]
    simp [hr, Except.toOption]

theorem okRows_length : ∀ (l : List (String × List (String × String))),
    (∀ p ∈ l, exceptOk (statRow p.1 p.2) = true) →
    (okRows l).length = l.length := by
  intro l
  induction l with
  | nil => intro _; rfl
  | cons p rest ih =>
    intro h
    have hp := h p (List.mem_cons_self p rest)
    obtain ⟨r, hr⟩ : ∃ r, statRow p.1 p.2 = .ok r := by
      cases hst : statRow p.1 p.2 with
      | ok r => exact ⟨r, rfl⟩
      | error e => rw [hst] at hp; exact absurd hp (by simp [exceptOk])
    have h2 := ih (fun q hq => h q (List.mem_cons_of_mem _ hq))
    unfold okRows at h2 ⊢
    rw [List.filterMap_cons]
    simp only [hr, Except.toOption, List.length_cons]
    simp only [Except.toOption] at h2
    omega

theorem mem_okRows {r : String} {l : List (String × List (String × String))}
    (h : r ∈ okRows l) : ∃ p ∈ l, statRow p.1 p.2 = .ok r := by
  unfold okRows at h
  obtain ⟨p, hp, he⟩ := List.mem_filterMap.mp h
  refine ⟨p, hp, ?_⟩
  cases hst : statRow p.1 p.2 with
  | ok r2 => rw [hst] at he; simp [Except.toOption] at he; rw [he]
  | error e => rw [hst] at he; simp [Except.toOption] at he

theorem okRows_mem_of {p : String × List (String × String)}
    {l : List (String × List (String × String))} {r : String}
    (hp : p ∈ l) (hr : statRow p.1 p.2 = .ok r) : r ∈ okRows l := by
  unfold okRows
  exact List.mem_filterMap.mpr ⟨p, hp, by simp [hr, Except.toOption]⟩

/-- Forward evaluation of one aggregator record line. -/
theorem statRow_eq (f : String) (obj : List (String × String)) (y m d : Int) (s : String)
    (mn mx mean sd : String)
    (hy : get_ymds_from_filename f = .ok (y, m, d, s))
    (h1 : pyDictGet obj "minimum" = .ok mn)
    (h2 : pyDictGet obj "maximum" = .ok mx)
    (h3 : pyDictGet obj "mean" = .ok mean)
    (h4 : pyDictGet obj "stddev" = .ok sd) :
    statRow f obj =
      .ok (dateString y m d ++ "," ++ mn ++ "," ++ mx ++ "," ++ mean ++ "," ++ sd) := by
  unfold statRow
  rw [hy, h1, h2, h3, h4]

/-- Inversion of a successful aggregator record line. -/
theorem statRow_ok_inv {f : String} {obj : List (String × String)} {r : String}
    (hr : statRow f obj = .ok r) :
    ∃ y m d s mn mx mean sd,
      get_ymds_from_filename f = .ok (y, m, d, s) ∧
      r = dateString y m d ++ "," ++ mn ++ "," ++ mx ++ "," ++ mean ++ "," ++ sd := by
  unfold statRow at hr
  split at hr
  · exact absurd hr (by simp)
  next ymds hy =>
    split at hr
    · exact absurd hr (by simp)
    next mn h1 =>
      split at hr
      · exact absurd hr (by simp)
      next mx h2 =>
        split at hr
        · exact absurd hr (by simp)
        next mean h3 =>
          split at hr
          · exact absurd hr (by simp)
          next sd h4 =>
            obtain ⟨y, m, d, s⟩ := ymds
            exact ⟨y, m, d, s, mn, mx, mean, sd, hy, (Except.ok.inj hr).symm⟩

/-! # Helper lemmas: digit strings and date-string widths -/

theorem natDigitsF_len : ∀ (fuel k n : Nat), 1 ≤ k → n < 10 ^ k →
    (natDigitsF fuel n).length ≤ k := by
  intro fuel
  induction fuel with
  | zero => intro k n hk _; simp [natDigitsF]
  | succ f ih =>
    intro k n hk hn
    by_cases h : n < 10
    · simp [natDigitsF, h]; omega
    · simp only [natDigitsF, if_neg h, List.length_append, List.length_cons,
        List.length_nil]
      have hk2 : 2 ≤ k := by
        by_contra hc
        have : k = 1 := by omega
        rw [this] at hn
        simp at hn
        omega
      have hdiv : n / 10 < 10 ^ (k - 1) := by
        have h10 : (10 : Nat) ^ k = 10 ^ (k - 1) * 10 := by
          rw [← pow_succ]
          congr 1
          omega
        rw [h10] at hn
        exact Nat.div_lt_of_lt_mul (by omega)
      have := ih (k - 1) (n / 10) (by omega) hdiv
      omega

theorem natDigitsF_head : ∀ (fuel n : Nat), n < 10 ^ fuel → 1 ≤ n →
    ∃ c cs, natDigitsF fuel n = c :: cs ∧ 49 ≤ c.toNat := by
  intro fuel
  induction fuel with
  | zero => intro n hn h1; simp at hn; omega
  | succ f ih =>
    intro n hn h1
    by_cases h : n < 10
    · refine ⟨digitChar n, [], by simp [natDigitsF, h], ?_⟩
      interval_cases n <;> decide
    · have h1d : 1 ≤ n / 10 := by
        have := Nat.div_le_div_right (c := 10) (show 10 ≤ n by omega)
        simpa using this
      have hdiv : n / 10 < 10 ^ f := by
        have h10 : (10 : Nat) ^ (f + 1) = 10 ^ f * 10 := by rw [← pow_succ]
        rw [h10] at hn
        exact Nat.div_lt_of_lt_mul (by omega)
      obtain ⟨c, cs, hc, hge⟩ := ih (n / 10) hdiv h1d
      exact ⟨c, cs ++ [digitChar (n % 10)], by simp [natDigitsF, h, hc], hge⟩

theorem pyFormat0d_data (w : Nat) (v : Int) (h0 : 0 ≤ v) :
    (pyFormat0d w v).data = padZeros w (natDigitsL v.toNat) := by
  unfold pyFormat0d
  rw [if_neg (by omega)]

theorem padZeros_length (w : Nat) (cs : List Char) (h : cs.length ≤ w) :
    (padZeros w cs).length = w := by
  unfold padZeros
  simp
  omega

theorem natDigitsL_len_le (k n : Nat) (hk : 1 ≤ k) (hn : n < 10 ^ k) :
    (natDigitsL n).length ≤ k := natDigitsF_len (n + 1) k n hk hn

theorem pyFormat0d_len (w : Nat) (v : Int) (h0 : 0 ≤ v) (hw : 1 ≤ w)
    (hb : v.toNat < 10 ^ w) : (pyFormat0d w v).data.length = w := by
  rw [pyFormat0d_data w v h0]
  exact padZeros_length w _ (natDigitsL_len_le w v.toNat hw hb)

/-- The date field of a record line is exactly ten characters wide when
the resolved components are in formatting range. -/
theorem dateString_len (y m d : Int) (hy0 : 0 ≤ y) (hy1 : y ≤ 9999)
    (hm0 : 0 ≤ m) (hm1 : m ≤ 99) (hd0 : 0 ≤ d) (hd1 : d ≤ 99) :
    (dateString y m d).data.length = 10 := by
  unfold dateString
  simp only [str_data_append, List.length_append]
  rw [pyFormat0d_len 4 y hy0 (by omega) (by omega),
    pyFormat0d_len 2 m hm0 (by omega) (by omega),
    pyFormat0d_len 2 d hd0 (by omega) (by omega)]
  rfl

theorem ymdsWidthOk_inv {f : String} {y m d : Int} {s : String}
    (hw : ymdsWidthOk f = true) (hy : get_ymds_from_filename f = .ok (y, m, d, s)) :
    0 ≤ y ∧ y ≤ 9999 ∧ 0 ≤ m ∧ m ≤ 99 ∧ 0 ≤ d ∧ d ≤ 99 := by
  unfold ymdsWidthOk at hw
  rw [hy] at hw
  simp only [Bool.and_eq_true, decide_eq_true_eq] at hw
  tauto

/-- Every successful record line of a width-normal file splits as a
ten-character date field followed by the value fields. -/
theorem statRow_shape {f : String} {obj : List (String × String)} {r : String}
    (hr : statRow f obj = .ok r) (hw : ymdsWidthOk f = true) :
    ∃ pre rest, r.data = pre ++ rest ∧ pre.length = 10 := by
  obtain ⟨y, m, d, s, mn, mx, mean, sd, hy, hre⟩ := statRow_ok_inv hr
  obtain ⟨hy0, hy1, hm0, hm1, hd0, hd1⟩ := ymdsWidthOk_inv hw hy
  refine ⟨(dateString y m d).data,
    ("," ++ mn ++ "," ++ mx ++ "," ++ mean ++ "," ++ sd).data, ?_, ?_⟩
  · rw [hre]
    simp [str_data_append, List.append_assoc]
  · exact dateString_len y m d hy0 hy1 hm0 hm1 hd0 hd1

theorem pairwise_imp_mem {α : Type} {R S : α → α → Prop} :
    ∀ {l : List α}, (∀ a ∈ l, ∀ b ∈ l, R a b → S a b) → l.Pairwise R → l.Pairwise S := by
  intro l
  induction l with
  | nil => intro _ _; exact List.Pairwise.nil
  | cons x xs ih =>
    intro h hp
    rcases List.pairwise_cons.mp hp with ⟨hx, hxs⟩
    refine List.Pairwise.cons ?_ ?_
    · intro b hb
      exact h x (List.mem_cons_self x xs) b (List.mem_cons_of_mem _ hb) (hx b hb)
    · exact ih (fun a ha b hb => h a (List.mem_cons_of_mem _ ha) b
        (List.mem_cons_of_mem _ hb)) hxs

/-! # The Sensor Aggregator: C4 and C10 -/

/-- C4: for a list of distinct stat files whose records all build, the
aggregator writes to the label-normalized filename the header followed
by the record lines in sorted order; there is one line per input file,
and the sorted lines are ordered by their ten-character date fields. -/
theorem aggregator_sorted_csv (label : String)
    (stat_files : List (String × List (String × String)))
    (hnd : (stat_files.map Prod.fst).Nodup)
    (hok : ∀ p ∈ stat_files, exceptOk (statRow p.1 p.2) = true)
    (hw : ∀ p ∈ stat_files, ymdsWidthOk p.1 = true) :
    generate_sensor_stats label stat_files =
      .ok (normalizeLabel label ++ "_stats.csv",
        csvHeader ++ String.join ((List.insertionSort rowLe (okRows stat_files)).map
          (fun line => "\n" ++ line))) ∧
    (okRows stat_files).length = stat_files.length ∧
    List.Sorted rowLe (List.insertionSort rowLe (okRows stat_files)) ∧
    List.Pairwise (fun a b => pyStrLeL (a.data.take 10) (b.data.take 10) = true)
      (List.insertionSort rowLe (okRows stat_files)) := by
  refine ⟨?_, okRows_length _ hok, List.sorted_insertionSort rowLe _, ?_⟩
  · unfold generate_sensor_stats sortedRowsOf
    rw [pyDictOf_eq_self _ hnd, collectRows_ok _ hok]
  · have hsorted : List.Pairwise rowLe (List.insertionSort rowLe (okRows stat_files)) :=
      List.sorted_insertionSort rowLe _
    refine pairwise_imp_mem ?_ hsorted
    intro a ha b hb hab
    have hma : a ∈ okRows stat_files :=
      (List.perm_insertionSort rowLe (okRows stat_files)).mem_iff.mp ha
    have hmb : b ∈ okRows stat_files :=
      (List.perm_insertionSort rowLe (okRows stat_files)).mem_iff.mp hb
    obtain ⟨pa, hpa, hra⟩ := mem_okRows hma
    obtain ⟨pb, hpb, hrb⟩ := mem_okRows hmb
    obtain ⟨prea, resta, hda, hla⟩ := statRow_shape hra (hw pa hpa)
    obtain ⟨preb, restb, hdb, hlb⟩ := statRow_shape hrb (hw pb hpb)
    have hab2 : pyStrLeL a.data b.data = true := hab
    rw [hda, hdb] at hab2 ⊢
    rw [show (prea ++ resta).take 10 = prea by rw [← hla]; exact take_len_append _ _,
      show (preb ++ restb).take 10 = preb by rw [← hlb]; exact take_len_append _ _]
    exact pyStrLeL_append prea preb resta restb (by omega) hab2

/-- Witness for C4: two MODIS stat files given in reverse date order. -/
theorem aggregator_sorted_csv_witness :
    (let files := [("MOD09GQ.A2016033.stats",
        [("minimum", "12.5"), ("maximum", "100"), ("mean", "50"), ("stddev", "3.25")]),
      ("MOD09GQ.A2014100.stats",
        [("minimum", "3"), ("maximum", "9"), ("mean", "5"), ("stddev", "1")])]
    generate_sensor_stats "Terra NDVI" files =
      .ok (normalizeLabel "Terra NDVI" ++ "_stats.csv",
        csvHeader ++ String.join ((List.insertionSort rowLe (okRows files)).map
          (fun line => "\n" ++ line))) ∧
    (okRows files).length = files.length ∧
    List.Sorted rowLe (List.insertionSort rowLe (okRows files)) ∧
    List.Pairwise (fun a b => pyStrLeL (a.data.take 10) (b.data.take 10) = true)
      (List.insertionSort rowLe (okRows files))) :=
  aggregator_sorted_csv "Terra NDVI" _ (by decide) (by decide) (by decide)

/-- C10: the aggregator succeeds on a record whose filename no sensor
rule matches, emitting for it a row whose date field is the string
0000-00-00; that row is in the output rows, and it compares strictly
below the row of every record with a real (year at least 1) date, while
the output is sorted, so it is placed before all such rows. -/
theorem aggregator_unmatched_zero_row (label : String)
    (stat_files : List (String × List (String × String)))
    (p : String × List (String × String))
    (hnd : (stat_files.map Prod.fst).Nodup)
    (hok : ∀ q ∈ stat_files, exceptOk (statRow q.1 q.2) = true)
    (hw : ∀ q ∈ stat_files, ymdsWidthOk q.1 = true)
    (hmem : p ∈ stat_files) (hunm : unmatchedB p.1 = true) :
    exceptOk (generate_sensor_stats label stat_files) = true ∧
    (∃ r, statRow p.1 p.2 = .ok r ∧ r.data.take 10 = "0000-00-00".data ∧
      r ∈ okRows stat_files ∧
      (∀ q ∈ stat_files, ∀ (y m d : Int) (s rq : String),
        get_ymds_from_filename q.1 = .ok (y, m, d, s) → 1 ≤ y →
        statRow q.1 q.2 = .ok rq → pyStrLt r rq = true)) ∧
    List.Sorted rowLe (List.insertionSort rowLe (okRows stat_files)) := by
  refine ⟨?_, ?_, List.sorted_insertionSort rowLe _⟩
  · unfold generate_sensor_stats sortedRowsOf
    rw [pyDictOf_eq_self _ hnd, collectRows_ok _ hok]
    rfl
  · have hp := hok p hmem
    obtain ⟨r, hr⟩ : ∃ r, statRow p.1 p.2 = .ok r := by
      cases hst : statRow p.1 p.2 with
      | ok r => exact ⟨r, rfl⟩
      | error e => rw [hst] at hp; exact absurd hp (by simp [exceptOk])
    obtain ⟨y0, m0, d0, s0, mn0, mx0, mean0, sd0, hy0, hre0⟩ := statRow_ok_inv hr
    have hzero : get_ymds_from_filename p.1 = .ok (0, 0, 0, "unk") :=
      get_ymds_unmatched p.1 hunm
    rw [hzero] at hy0
    obtain ⟨hy0e, hm0e, hd0e, _⟩ :
        (0 : Int) = y0 ∧ (0 : Int) = m0 ∧ (0 : Int) = d0 ∧ "unk" = s0 := by
      have := Except.ok.inj hy0
      exact ⟨congrArg (fun t => t.1) this, congrArg (fun t => t.2.1) this,
        congrArg (fun t => t.2.2.1) this, congrArg (fun t => t.2.2.2) this⟩
    have hrdata : r.data = "0000-00-00".data ++
        ("," ++ mn0 ++ "," ++ mx0 ++ "," ++ mean0 ++ "," ++ sd0).data := by
      rw [hre0, ← hy0e, ← hm0e, ← hd0e]
      rw [show dateString 0 0 0 = "0000-00-00" from rfl]
      simp [str_data_append, List.append_assoc]
    refine ⟨r, hr, ?_, okRows_mem_of hmem hr, ?_⟩
    · rw [hrdata, show (10 : Nat) = ("0000-00-00".data).length from rfl]
      exact take_len_append _ _
    · intro q hq y m d s rq hyq hy1 hrq
      obtain ⟨y2, m2, d2, s2, mn2, mx2, mean2, sd2, hy2, hre2⟩ := statRow_ok_inv hrq
      rw [hyq] at hy2
      have hyy : y = y2 := congrArg (fun t => t.1) (Except.ok.inj hy2)
      obtain ⟨hwy0, hwy1, _, _, _, _⟩ := ymdsWidthOk_inv (hw q hq) hyq
      -- decompose the year field of the real row
      have htn1 : 1 ≤ y.toNat := by omega
      have htn4 : y.toNat < 10 ^ 4 := by omega
      obtain ⟨c, cs, hcs, hc49⟩ :=
        natDigitsF_head (y.toNat + 1) y.toNat
          (lt_of_lt_of_le (Nat.lt_pow_self (by omega) y.toNat)
            (Nat.pow_le_pow_right (by omega) (by omega))) htn1
      have hlen_le : (natDigitsL y.toNat).length ≤ 4 := natDigitsL_len_le 4 y.toNat (by omega) htn4
      rw [show natDigitsL y.toNat = natDigitsF (y.toNat + 1) y.toNat from rfl, hcs] at hlen_le
      have hyfmt : (pyFormat0d 4 y).data =
          List.replicate (4 - (c :: cs).length) '0' ++ (c :: cs) := by
        rw [pyFormat0d_data 4 y (by omega)]
        unfold padZeros
        rw [show natDigitsL y.toNat = natDigitsF (y.toNat + 1) y.toNat from rfl, hcs]
      have hcore : pyStrLtL (List.replicate 4 '0') ((pyFormat0d 4 y).data) = true := by
        rw [hyfmt]
        have h4 : (4 : Nat) = (4 - (c :: cs).length) + (c :: cs).length := by omega
        nth_rewrite 1 [h4]
        exact pyStrLtL_zeros (4 - (c :: cs).length) c cs hc49
      have hylen : ((pyFormat0d 4 y).data).length = 4 := pyFormat0d_len 4 y (by omega) (by omega) htn4
      -- assemble the two rows
      have hrqdata : rq.data = (pyFormat0d 4 y).data ++
          (("-" ++ pyFormat0d 2 m2 ++ "-" ++ pyFormat0d 2 d2).data ++
           ("," ++ mn2 ++ "," ++ mx2 ++ "," ++ mean2 ++ "," ++ sd2).data) := by
        rw [hre2, ← hyy]
        unfold dateString
        simp [str_data_append, List.append_assoc]
      have hrdata2 : r.data = List.replicate 4 '0' ++
          ("-00-00".data ++ ("," ++ mn0 ++ "," ++ mx0 ++ "," ++ mean0 ++ "," ++ sd0).data) := by
        rw [hrdata]
        rfl
      show pyStrLtL r.data rq.data = true
      rw [hrdata2, hrqdata]
      exact pyStrLtL_append _ _ _ _ (by simp [hylen]) hcore

/-- Witness for C10: an unmatched filename next to a MODIS record. -/
theorem aggregator_unmatched_zero_row_witness :
    (let files := [("scene.stats",
        [("minimum", "1"), ("maximum", "2"), ("mean", "1.5"), ("stddev", "0")]),
      ("MOD09GQ.A2016033.stats",
        [("minimum", "12.5"), ("maximum", "100"), ("mean", "50"), ("stddev", "3.25")])]
    exceptOk (generate_sensor_stats "Multi Sensor NDVI" files) = true ∧
    (∃ r, statRow "scene.stats"
        [("minimum", "1"), ("maximum", "2"), ("mean", "1.5"), ("stddev", "0")] = .ok r ∧
      r.data.take 10 = "0000-00-00".data ∧
      r ∈ okRows files ∧
      (∀ q ∈ files, ∀ (y m d : Int) (s rq : String),
        get_ymds_from_filename q.1 = .ok (y, m, d, s) → 1 ≤ y →
        statRow q.1 q.2 = .ok rq → pyStrLt r rq = true)) ∧
    List.Sorted rowLe (List.insertionSort rowLe (okRows files))) :=
  aggregator_unmatched_zero_row "Multi Sensor NDVI"
    [("scene.stats", [("minimum", "1"), ("maximum", "2"), ("mean", "1.5"), ("stddev", "0")]),
     ("MOD09GQ.A2016033.stats",
       [("minimum", "12.5"), ("maximum", "100"), ("mean", "50"), ("stddev", "3.25")])]
    ("scene.stats", [("minimum", "1"), ("maximum", "2"), ("mean", "1.5"), ("stddev", "0")])
    (by decide) (by decide) (by decide) (by decide) (by decide)

/-! # Helper lemmas: exception plumbing -/

theorem exceptOk_exists {ε A : Type} {x : Except ε A} (h : exceptOk x = true) :
    ∃ a, x = .ok a := by
  cases x with
  | ok a => exact ⟨a, rfl⟩
  | error e => exact absurd h (by simp [exceptOk])

theorem pyTry_ok {A B : Type} {x : Except PyErr A} {a : A} (h : x = .ok a)
    (f : A → Except PyErr B) : pyTry x f = f a := by rw [h]; rfl

theorem pyTry_ok_inv {A B : Type} {x : Except PyErr A} {f : A → Except PyErr B} {v : B}
    (h : pyTry x f = .ok v) : ∃ a, x = .ok a ∧ f a = .ok v := by
  cases hx : x with
  | ok a =>
    rw [hx] at h
    exact ⟨a, rfl, h⟩
  | error e =>
    rw [hx] at h
    exact absurd h (by simp [pyTry])

/-! # Helper lemmas: the Python date order -/

theorem dateLt_trichot (a b : PyDate) : dateLtP a b ∨ a = b ∨ dateLtP b a := by
  obtain ⟨a1, a2, a3⟩ := a
  obtain ⟨b1, b2, b3⟩ := b
  simp only [dateLtP, PyDate.mk.injEq]
  omega

theorem dateLtB_eq_false {a b : PyDate} (h : ¬ dateLtP a b) : dateLtB a b = false := by
  simp [dateLtB, h]

theorem min2D_of_lt {a b : PyDate} (h : dateLtP b a) : min2D a b = b := by
  unfold min2D
  rw [if_pos (by simp [dateLtB, h])]

theorem min2D_self (a : PyDate) : min2D a a = a := by
  unfold min2D
  split <;> rfl

theorem max2D_of_lt {a b : PyDate} (h : dateLtP a b) : max2D a b = b := by
  unfold max2D
  rw [if_pos (by simp [dateLtB, h])]

theorem max2D_self (a : PyDate) : max2D a a = a := by
  unfold max2D
  split <;> rfl

theorem min2D_min2D (s d x : PyDate) : min2D (min2D s d) x = min2D s (min2D d x) := by
  obtain ⟨a1, a2, a3⟩ := s
  obtain ⟨b1, b2, b3⟩ := d
  obtain ⟨c1, c2, c3⟩ := x
  simp only [min2D, dateLtB, decide_eq_true_eq, dateLtP, PyDate.mk.injEq]
  split_ifs <;> simp_all <;> omega

theorem max2D_max2D (s d x : PyDate) : max2D (max2D s d) x = max2D s (max2D d x) := by
  obtain ⟨a1, a2, a3⟩ := s
  obtain ⟨b1, b2, b3⟩ := d
  obtain ⟨c1, c2, c3⟩ := x
  simp only [max2D, dateLtB, decide_eq_true_eq, dateLtP, PyDate.mk.injEq]
  split_ifs <;> simp_all <;> omega

theorem foldl_min2D_start : ∀ (ds : List PyDate) (s d : PyDate),
    ds.foldl min2D (min2D s d) = min2D s (ds.foldl min2D d) := by
  intro ds
  induction ds with
  | nil => intro s d; rfl
  | cons x t ih =>
    intro s d
    simp only [List.foldl_cons]
    rw [min2D_min2D s d x, ih]

theorem foldl_max2D_start : ∀ (ds : List PyDate) (s d : PyDate),
    ds.foldl max2D (max2D s d) = max2D s (ds.foldl max2D d) := by
  intro ds
  induction ds with
  | nil => intro s d; rfl
  | cons x t ih =>
    intro s d
    simp only [List.foldl_cons]
    rw [max2D_max2D s d x, ih]

/-- The tracked minimum starting from a sentinel no smaller than the
observed minimum is the observed minimum. -/
theorem foldl_min2D_sentinel (ds : List PyDate) (s : PyDate) (hne : ds ≠ [])
    (hle : dateLtB s (obsMinDate ds) = false) :
    ds.foldl min2D s = obsMinDate ds := by
  cases ds with
  | nil => exact absurd rfl hne
  | cons d rest =>
    have hm : obsMinDate (d :: rest) = rest.foldl min2D d := rfl
    rw [hm] at hle ⊢
    rw [List.foldl_cons, foldl_min2D_start]
    rcases dateLt_trichot (rest.foldl min2D d) s with h | h | h
    · exact min2D_of_lt h
    · rw [← h]
      exact min2D_self _
    · exfalso
      rw [show dateLtB s (rest.foldl min2D d) = true by simp [dateLtB, h]] at hle
      exact Bool.noConfusion hle

/-- The tracked maximum starting from a sentinel no larger than the
observed maximum is the observed maximum. -/
theorem foldl_max2D_sentinel (ds : List PyDate) (s : PyDate) (hne : ds ≠ [])
    (hge : dateLtB (obsMaxDate ds) s = false) :
    ds.foldl max2D s = obsMaxDate ds := by
  cases ds with
  | nil => exact absurd rfl hne
  | cons d rest =>
    have hm : obsMaxDate (d :: rest) = rest.foldl max2D d := rfl
    rw [hm] at hge ⊢
    rw [List.foldl_cons, foldl_max2D_start]
    rcases dateLt_trichot s (rest.foldl max2D d) with h | h | h
    · exact max2D_of_lt h
    · rw [h]
      exact max2D_self _
    · exfalso
      rw [show dateLtB (rest.foldl max2D d) s = true by simp [dateLtB, h]] at hge
      exact Bool.noConfusion hge

/-! # Helper lemmas: the record loop of generate_plot -/

theorem entriesOf_cons_ok {p : String × List (String × String)}
    {rest : List (String × List (String × String))} {e : PlotEntry}
    (he : plotRecord p.1 p.2 = .ok e) :
    entriesOf (p :: rest) = e :: entriesOf rest := by
  unfold entriesOf
  rw [List.filterMap_cons]
  simp [he, Except.toOption]

theorem entriesOf_length : ∀ (l : List (String × List (String × String))),
    (∀ p ∈ l, exceptOk (plotRecord p.1 p.2) = true) →
    (entriesOf l).length = l.length := by
  intro l
  induction l with
  | nil => intro _; rfl
  | cons p rest ih =>
    intro h
    obtain ⟨e, he⟩ := exceptOk_exists (h p (List.mem_cons_self p rest))
    rw [entriesOf_cons_ok he]
    simp [ih (fun q hq => h q (List.mem_cons_of_mem _ hq))]

theorem mem_entriesOf {e : PlotEntry} {l : List (String × List (String × String))}
    (h : e ∈ entriesOf l) : ∃ p ∈ l, plotRecord p.1 p.2 = .ok e := by
  unfold entriesOf at h
  obtain ⟨p, hp, he⟩ := List.mem_filterMap.mp h
  refine ⟨p, hp, ?_⟩
  cases hst : plotRecord p.1 p.2 with
  | ok e2 => rw [hst] at he; simp [Except.toOption] at he; rw [he]
  | error er => rw [hst] at he; simp [Except.toOption] at he

/-- Inversion of a successful plot record: the resolver and the date
constructor succeeded, and the entry carries their results. -/
theorem plotRecord_inv {f : String} {obj : List (String × String)} {e : PlotEntry}
    (h : plotRecord f obj = .ok e) :
    ∃ ymds, get_ymds_from_filename f = .ok ymds ∧
      datetime_date ymds.1 ymds.2.1 ymds.2.2.1 = .ok e.date ∧
      e.sensor = ymds.2.2.2 := by
  unfold plotRecord at h
  split at h
  · exact absurd h (by simp)
  next ymds hy =>
    split at h
    · exact absurd h (by simp)
    next date hdate =>
      split at h
      · exact absurd h (by simp)
      next mn h1 =>
        split at h
        · exact absurd h (by simp)
        next mx h2 =>
          split at h
          · exact absurd h (by simp)
          next mean h3 =>
            split at h
            · exact absurd h (by simp)
            next sd h4 =>
              have he := Except.ok.inj h
              refine ⟨ymds, hy, ?_, ?_⟩
              · rw [← he]; exact hdate
              · rw [← he]

theorem modisDecode_sensor {f s : String} {v : Int × Int × Int × String}
    (h : modisDecode f s = .ok v) : v.2.2.2 = s := by
  unfold modisDecode at h
  split at h
  · exact absurd h (by simp)
  next de hde =>
    split at h
    · exact absurd h (by simp)
    next y hy =>
      split at h
      · exact absurd h (by simp)
      next doy hdoy =>
        split at h
        · exact absurd h (by simp)
        next md hmd => rw [← Except.ok.inj h]

theorem landsatDecode_sensor {f s : String} {v : Int × Int × Int × String}
    (h : landsatDecode f s = .ok v) : v.2.2.2 = s := by
  unfold landsatDecode at h
  split at h
  · exact absurd h (by simp)
  next y hy =>
    split at h
    · exact absurd h (by simp)
    next doy hdoy =>
      split at h
      · exact absurd h (by simp)
      next md hmd => rw [← Except.ok.inj h]

/-- A resolved identity whose date builds successfully carries one of
the five coloured sensors (the fallback identity never builds). -/
theorem get_ymds_sensor {f : String} {ymds : Int × Int × Int × String}
    (hy : get_ymds_from_filename f = .ok ymds)
    (hd : exceptOk (datetime_date ymds.1 ymds.2.1 ymds.2.2.1) = true) :
    SENSOR_COLORS_KEYS.contains ymds.2.2.2 = true := by
  unfold get_ymds_from_filename at hy
  split_ifs at hy with h1 h2 h3 h4 h5
  · rw [modisDecode_sensor hy]; decide
  · rw [modisDecode_sensor hy]; decide
  · rw [landsatDecode_sensor hy]; decide
  · rw [landsatDecode_sensor hy]; decide
  · rw [landsatDecode_sensor hy]; decide
  · have he := Except.ok.inj hy
    rw [← he] at hd
    exact absurd hd (by decide)

theorem plotRecord_sensor {f : String} {obj : List (String × String)} {e : PlotEntry}
    (h : plotRecord f obj = .ok e) :
    SENSOR_COLORS_KEYS.contains e.sensor = true := by
  obtain ⟨ymds, hy, hdate, hs⟩ := plotRecord_inv h
  rw [hs]
  exact get_ymds_sensor hy (by rw [hdate]; rfl)

theorem plotRecord_date {p : String × List (String × String)} {e : PlotEntry}
    (h : plotRecord p.1 p.2 = .ok e) : recordDate p = .ok e.date := by
  obtain ⟨ymds, hy, hdate, _⟩ := plotRecord_inv h
  unfold recordDate
  rw [hy]
  exact hdate

theorem plotDates_eq : ∀ (l : List (String × List (String × String))),
    (∀ p ∈ l, exceptOk (plotRecord p.1 p.2) = true) →
    plotDates l = (entriesOf l).map (fun e => e.date) := by
  intro l
  induction l with
  | nil => intro _; rfl
  | cons p rest ih =>
    intro h
    obtain ⟨e, he⟩ := exceptOk_exists (h p (List.mem_cons_self p rest))
    rw [entriesOf_cons_ok he]
    unfold plotDates
    rw [List.filterMap_cons]
    simp only [plotRecord_date he, Except.toOption, List.map_cons]
    have h2 := ih (fun q hq => h q (List.mem_cons_of_mem _ hq))
    unfold plotDates at h2
    simp only [Except.toOption] at h2
    rw [h2]

/-- The record loop on fully-parsing stats collects the entries and
folds the date extremes from the sentinels. -/
theorem recordLoop_ok : ∀ (l : List (String × List (String × String)))
    (acc : List PlotEntry) (dmin dmax : PyDate),
    (∀ p ∈ l, exceptOk (plotRecord p.1 p.2) = true) →
    recordLoop l acc dmin dmax = .ok (acc.reverse ++ entriesOf l,
      ((entriesOf l).map (fun e => e.date)).foldl min2D dmin,
      ((entriesOf l).map (fun e => e.date)).foldl max2D dmax) := by
  intro l
  induction l with
  | nil =>
    intro acc dmin dmax _
    unfold recordLoop
    simp [entriesOf]
  | cons p rest ih =>
    intro acc dmin dmax h
    obtain ⟨e, he⟩ := exceptOk_exists (h p (List.mem_cons_self p rest))
    show pyTry (plotRecord p.1 p.2) _ = _
    rw [pyTry_ok he]
    show recordLoop rest (e :: acc)
        (if dateLtB e.date dmin then e.date else dmin)
        (if dateLtB dmax e.date then e.date else dmax) = _
    rw [ih (e :: acc) _ _ (fun q hq => h q (List.mem_cons_of_mem _ hq)),
      entriesOf_cons_ok he]
    simp only [List.map_cons, List.foldl_cons, List.reverse_cons, min2D, max2D]
    simp [List.append_assoc]

/-- If the record loop succeeds, every record parsed. -/
theorem recordLoop_ok_forall : ∀ (l : List (String × List (String × String)))
    (acc : List PlotEntry) (dmin dmax : PyDate)
    (out : List PlotEntry × PyDate × PyDate),
    recordLoop l acc dmin dmax = .ok out →
    ∀ p ∈ l, ∃ e, plotRecord p.1 p.2 = .ok e := by
  intro l
  induction l with
  | nil => intro acc dmin dmax out _ p hp; exact absurd hp (by simp)
  | cons q rest ih =>
    intro acc dmin dmax out h p hp
    have h2 : pyTry (plotRecord q.1 q.2) (fun e =>
        recordLoop rest (e :: acc)
          (if dateLtB e.date dmin then e.date else dmin)
          (if dateLtB dmax e.date then e.date else dmax)) = .ok out := h
    obtain ⟨e, he, hcont⟩ := pyTry_ok_inv h2
    rcases List.mem_cons.mp hp with rfl | hp2
    · exact ⟨e, he⟩
    · exact ih _ _ _ _ hcont p hp2

/-! # Helper lemmas: the remaining stages of generate_plot -/

theorem firstSeen_sub : ∀ (l acc : List String) (s : String),
    s ∈ firstSeen l acc → s ∈ l ∨ s ∈ acc := by
  intro l
  induction l with
  | nil =>
    intro acc s h
    right
    unfold firstSeen at h
    simpa using h
  | cons x rest ih =>
    intro acc s h
    unfold firstSeen at h
    by_cases hx : acc.contains x
    · rw [if_pos hx] at h
      rcases ih acc s h with h2 | h2
      · exact Or.inl (List.mem_cons_of_mem _ h2)
      · exact Or.inr h2
    · rw [if_neg hx] at h
      rcases ih (x :: acc) s h with h2 | h2
      · exact Or.inl (List.mem_cons_of_mem _ h2)
      · rcases List.mem_cons.mp h2 with h4 | h3
        · exact Or.inl (by rw [h4]; exact List.mem_cons_self _ _)
        · exact Or.inr h3

theorem sensorLoop_ok (spec : RangeSpec) (entries : List PlotEntry) :
    ∀ (ss : List String),
    (∀ s ∈ ss, SENSOR_COLORS_KEYS.contains s = true) →
    sensorLoop spec entries ss =
      .ok (ss.map (fun s => (s, sensorSeries spec entries s))) := by
  intro ss
  induction ss with
  | nil => intro _; rfl
  | cons s rest ih =>
    intro h
    unfold sensorLoop
    rw [if_pos (h s (List.mem_cons_self s rest)),
      ih (fun q hq => h q (List.mem_cons_of_mem _ hq))]
    rfl

theorem lowerSubject_ok (subjects : List String) (pt : String)
    (h : pt = "Range" ∨ subjects ≠ []) : ∃ ls, lowerSubject subjects pt = .ok ls := by
  unfold lowerSubject
  by_cases hr : (pt == "Range") = true
  · rw [if_pos hr]
    exact ⟨"mean", rfl⟩
  · rw [if_neg hr]
    rcases h with h | h
    · exact absurd (by simp [h]) hr
    · cases subjects with
      | nil => exact absurd rfl h
      | cons s rest => exact ⟨strToLower s, rfl⟩

theorem dateAddDays_ok {o k : Int} (h1 : 1 ≤ o + k) (h2 : o + k ≤ maxOrdinal) :
    dateAddDays o k = .ok (o + k) := by
  unfold dateAddDays
  rw [if_pos ⟨h1, h2⟩]

/-- The padding loop moves the minimum down and the maximum up by five
days per pass when the results stay representable. -/
theorem padLoop_ok : ∀ (n : Nat) (mn mx : Int),
    1 ≤ mn - 5 * (n : Int) → mx + 5 * (n : Int) ≤ maxOrdinal →
    mn ≤ maxOrdinal → 1 ≤ mx →
    padLoop n mn mx = .ok (mn - 5 * (n : Int), mx + 5 * (n : Int)) := by
  intro n
  induction n with
  | zero =>
    intro mn mx _ _ _ _
    show Except.ok (mn, mx) = _
    norm_num
  | succ k ih =>
    intro mn mx h1 h2 h3 h4
    show pyTry (dateAddDays mn (-5)) _ = _
    rw [pyTry_ok (dateAddDays_ok (o := mn) (k := -5) (by push_cast at h1 ⊢; omega)
      (by omega))]
    show pyTry (dateAddDays mx 5) _ = _
    rw [pyTry_ok (dateAddDays_ok (o := mx) (k := 5) (by omega)
      (by push_cast at h2 ⊢; omega))]
    show padLoop k (mn + -5) (mx + 5) = _
    rw [show mn - 5 * ((k + 1 : Nat) : Int) = (mn + -5) - 5 * (k : Int) by push_cast; ring,
      show mx + 5 * ((k + 1 : Nat) : Int) = (mx + 5) + 5 * (k : Int) by push_cast; ring]
    exact ih (mn + -5) (mx + 5) (by omega) (by omega) (by omega) (by omega)

/-! # The X-axis bounds of generate_plot: C3 -/

/-- C3 (amended): for a non-empty, fully-parsing stats set whose
observed dates lie within the sentinel initializers (at most
9998-12-31, at least 1900-01-01) and whose padded bounds stay
representable, the X-axis bounds are the observed minimum date minus
five days per padding pass and the observed maximum date plus the same,
with `floor(span/365) + 1` passes — always at least one. -/
theorem plot_xaxis_bounds (pn : String) (subjects : List String) (band_type : String)
    (stats : List (String × List (String × String))) (ptype key : String)
    (hpt : ptype = "Range" ∨ ptype = "Value")
    (hsub : ptype = "Range" ∨ subjects ≠ [])
    (hkey : findRangeKey bandKeys band_type = some key)
    (hok : ∀ p ∈ stats, exceptOk (plotRecord p.1 p.2) = true)
    (hne : stats ≠ [])
    (hmin : dateLtB sentinelMin (obsMinDate (plotDates stats)) = false)
    (hmax : dateLtB (obsMaxDate (plotDates stats)) sentinelMax = false)
    (hord : ordOf (obsMinDate (plotDates stats)) ≤ ordOf (obsMaxDate (plotDates stats)))
    (hlo : 1 ≤ ordOf (obsMinDate (plotDates stats)) - 5 * padIters stats)
    (hhi : ordOf (obsMaxDate (plotDates stats)) + 5 * padIters stats ≤ maxOrdinal) :
    (generate_plot pn subjects band_type stats ptype).map
        (fun o => (o.xlimLo, o.xlimHi)) =
      .ok (ordOf (obsMinDate (plotDates stats)) - 5 * padIters stats,
           ordOf (obsMaxDate (plotDates stats)) + 5 * padIters stats) ∧
    1 ≤ padIters stats := by
  have hfd0 : 0 ≤ Int.fdiv
      (ordOf (obsMaxDate (plotDates stats)) - ordOf (obsMinDate (plotDates stats))) 365 :=
    Int.fdiv_nonneg (by omega) (by norm_num)
  have hpadit : padIters stats = Int.fdiv
      (ordOf (obsMaxDate (plotDates stats)) - ordOf (obsMinDate (plotDates stats))) 365 + 1 :=
    rfl
  have hpad1 : 1 ≤ padIters stats := by rw [hpadit]; omega
  refine ⟨?_, hpad1⟩
  have hence : entriesOf stats ≠ [] := by
    have hl := entriesOf_length stats hok
    intro hnil
    rw [hnil] at hl
    exact hne (List.length_eq_zero.mp hl.symm)
  have hdts : plotDates stats = (entriesOf stats).map (fun e => e.date) :=
    plotDates_eq stats hok
  have hdne : plotDates stats ≠ [] := by
    rw [hdts]
    intro hcontra
    exact hence (by simpa using hcontra)
  obtain ⟨ls, hls⟩ := lowerSubject_ok subjects ptype hsub
  have hrec := recordLoop_ok stats [] sentinelMin sentinelMax hok
  have hminf : ((entriesOf stats).map (fun e => e.date)).foldl min2D sentinelMin =
      obsMinDate (plotDates stats) := by
    rw [← hdts]
    exact foldl_min2D_sentinel _ _ hdne hmin
  have hmaxf : ((entriesOf stats).map (fun e => e.date)).foldl max2D sentinelMax =
      obsMaxDate (plotDates stats) := by
    rw [← hdts]
    exact foldl_max2D_sentinel _ _ hdne hmax
  rw [hminf, hmaxf] at hrec
  simp only [List.reverse_nil, List.nil_append] at hrec
  have hsens : ∀ s ∈ firstSeen ((entriesOf stats).map (fun e => e.sensor)) [],
      SENSOR_COLORS_KEYS.contains s = true := by
    intro s hs
    rcases firstSeen_sub _ _ s hs with h2 | h2
    · obtain ⟨e, hemem, hesens⟩ := List.mem_map.mp h2
      obtain ⟨p, hp, hpe⟩ := mem_entriesOf hemem
      rw [← hesens]
      exact plotRecord_sensor hpe
    · simp at h2
  have hserL := sensorLoop_ok (bandSpecOf key) (entriesOf stats) _ hsens
  have hit : (((Int.fdiv (ordOf (obsMaxDate (plotDates stats)) -
      ordOf (obsMinDate (plotDates stats))) 365) + 1).toNat : Int) = padIters stats := by
    rw [hpadit]
    omega
  have hpadok := padLoop_ok
    ((Int.fdiv (ordOf (obsMaxDate (plotDates stats)) -
      ordOf (obsMinDate (plotDates stats))) 365 + 1).toNat)
    (ordOf (obsMinDate (plotDates stats))) (ordOf (obsMaxDate (plotDates stats)))
    (by rw [hit]; exact hlo) (by rw [hit]; exact hhi) (by omega) (by omega)
  rw [generate_plot_body hpt hkey]
  unfold plotBody
  rw [pyTry_ok hls, pyTry_ok hrec]
  rw [pyTry_ok hserL]
  rw [pyTry_ok hpadok]
  rw [hit]
  rfl

/-- Witness for the amended C3: two MODIS records spanning almost two
years, giving two padding passes. -/
theorem plot_xaxis_bounds_witness :
    (let stats := [("MOD09GQ.A2016033.stats",
        [("minimum", "12.5"), ("maximum", "100"), ("mean", "50"), ("stddev", "3.25")]),
      ("MOD09GQ.A2014100.stats",
        [("minimum", "3"), ("maximum", "9"), ("mean", "5"), ("stddev", "1")])]
    (generate_plot "p" ["Minimum", "Maximum", "Mean"] "NDVI" stats "Range").map
        (fun o => (o.xlimLo, o.xlimHi)) =
      .ok (ordOf (obsMinDate (plotDates stats)) - 5 * padIters stats,
           ordOf (obsMaxDate (plotDates stats)) + 5 * padIters stats) ∧
    1 ≤ padIters stats) :=
  plot_xaxis_bounds "p" ["Minimum", "Maximum", "Mean"] "NDVI"
    [("MOD09GQ.A2016033.stats",
        [("minimum", "12.5"), ("maximum", "100"), ("mean", "50"), ("stddev", "3.25")]),
     ("MOD09GQ.A2014100.stats",
        [("minimum", "3"), ("maximum", "9"), ("mean", "5"), ("stddev", "1")])]
    "Range" "NDVI" (Or.inl rfl) (Or.inl rfl) (by decide) (by decide) (by decide)
    (by decide) (by decide) (by decide) (by decide) (by decide)

/-- C3 counterexample: one record dated 9999-06-01, beyond the
9998-12-31 sentinel that initializes the tracked minimum.  The plot
succeeds, but its lower X bound derives from the sentinel, not from the
observed minimum date minus the claimed padding (ordinal 3651841). -/
theorem plot_xaxis_sentinel_cex :
    (let stats := [("MOD09GA.A9999152.stats",
        [("minimum", "1"), ("maximum", "2"), ("mean", "1.5"), ("stddev", "0")])]
    (generate_plot "p" ["Minimum"] "NDVI" stats "Value").map
        (fun o => (o.xlimLo, o.xlimHi)) = .ok (3651689, 3651851) ∧
    obsMinDate (plotDates stats) = ⟨9999, 6, 1⟩ ∧
    obsMaxDate (plotDates stats) = ⟨9999, 6, 1⟩ ∧
    ordOf (⟨9999, 6, 1⟩ : PyDate) -
      5 * (Int.fdiv (ordOf (⟨9999, 6, 1⟩ : PyDate) - ordOf (⟨9999, 6, 1⟩ : PyDate)) 365 + 1) =
      3651841 ∧
    (3651689 : Int) ≠ 3651841) := by decide

/-! # Plot failure on unmatched records: C9 -/

/-- C9: for both valid plot types and any resolvable band type, a stats
set containing a record whose filename no sensor rule matches makes
`generate_plot` fail, because the fallback identity (0, 0, 0) is not a
valid calendar date; no chart output survives. -/
theorem unmatched_record_plot_fails (pn : String) (subjects : List String)
    (band_type : String) (stats : List (String × List (String × String)))
    (ptype : String)
    (hpt : ptype = "Range" ∨ ptype = "Value")
    (hkey : (findRangeKey bandKeys band_type).isSome = true)
    (hmem : ∃ p ∈ stats, unmatchedB p.1 = true) :
    exceptOk (generate_plot pn subjects band_type stats ptype) = false ∧
    datetime_date 0 0 0 = .error (.dateValueError 0 0 0) := by
  obtain ⟨p, hp, hunm⟩ := hmem
  obtain ⟨key, hkeq⟩ : ∃ k, findRangeKey bandKeys band_type = some k := by
    cases hk : findRangeKey bandKeys band_type with
    | some k => exact ⟨k, rfl⟩
    | none => rw [hk] at hkey; exact absurd hkey (by simp)
  refine ⟨?_, by decide⟩
  rw [generate_plot_body hpt hkeq]
  cases hb : plotBody pn subjects (bandSpecOf key) stats ptype with
  | error e => rfl
  | ok v =>
    exfalso
    unfold plotBody at hb
    obtain ⟨ls, hls, hb2⟩ := pyTry_ok_inv hb
    obtain ⟨r, hrec, hb3⟩ := pyTry_ok_inv hb2
    obtain ⟨e, he⟩ := recordLoop_ok_forall stats [] sentinelMin sentinelMax r hrec p hp
    obtain ⟨ymds, hy, hdate, _⟩ := plotRecord_inv he
    rw [get_ymds_unmatched p.1 hunm] at hy
    have hty := Except.ok.inj hy
    rw [← hty] at hdate
    norm_num [datetime_date] at hdate
    exact Except.noConfusion hdate

/-- Witness for C9: a single unmatched record under a Range plot. -/
theorem unmatched_record_plot_fails_witness :
    (let stats := [("scene.stats",
        [("minimum", "1"), ("maximum", "2"), ("mean", "1.5"), ("stddev", "0")])]
    exceptOk (generate_plot "p" ["Minimum", "Maximum", "Mean"] "NDVI" stats "Range") =
      false ∧
    datetime_date 0 0 0 = .error (.dateValueError 0 0 0)) :=
  unmatched_record_plot_fails "p" ["Minimum", "Maximum", "Mean"] "NDVI"
    [("scene.stats", [("minimum", "1"), ("maximum", "2"), ("mean", "1.5"), ("stddev", "0")])]
    "Range" (Or.inl rfl) (by decide)
    ⟨("scene.stats", [("minimum", "1"), ("maximum", "2"), ("mean", "1.5"), ("stddev", "0")]),
     by decide, by decide⟩

end ESPA
